import Mathlib

/-!
Verification development for the gunpradb scraping scripts
(`scrape_hlj.py`, `scrape_bandai_hobby.py`, `scrape_hlj_details.py`).

The Python sources are shallowly embedded:
* text is `String`, Python `float`/`Decimal` values are modelled as exact
  rationals (`ℚ`) — all numeric literals exercised here are exactly
  representable, and `decimal.Decimal` arithmetic on them is exact;
* Python `set` objects are modelled as `List String` with membership;
* operations that can raise are modelled in `Except PyExc`, and a
  `try/except` in the source corresponds to a `match` on that result;
* the page-fetch capability (Playwright) is an external collaborator and is
  modelled as input data: a listing site is a function from page number to
  the raw items its extractor returns, a detail fetch is a script of
  per-attempt outcomes.

Regular expressions from the sources are transcribed as hand-written
matchers with Python's leftmost / greedy-with-backtracking semantics on the
character repertoire the sources process (`\d` and `[0-9]` are ASCII
digits; `\s` is the whitespace class listed in `pyIsSpace`).
-/

namespace Gunpradb

/-! ## Basic character and string helpers -/

/-- ASCII digit test, the `[0-9]` / `\d` character class of the patterns. -/
def isDig (c : Char) : Bool := '0' ≤ c && c ≤ '9'

/-- Numeric value of an ASCII digit. -/
def digVal (c : Char) : Nat := c.toNat - '0'.toNat

/-- Python's `\s` regex class / `str.strip` whitespace repertoire
(restricted to the characters that occur in scraped text). -/
def pyIsSpace (c : Char) : Bool :=
  c = ' ' || c = '\t' || c = '\n' || c = '\x0d' ||
  c = '\x0b' || c = '\x0c' || c = ' ' || c = '　'

/-- Python `str.strip()` with no arguments. -/
def pyStrip (s : String) : String :=
  ⟨((s.toList.dropWhile pyIsSpace).reverse.dropWhile pyIsSpace).reverse⟩

/-- `FULLWIDTH_TO_ASCII = str.maketrans("０１２３４５６７８９，．", "0123456789,.")`
from `scrape_bandai_hobby.py`. -/
def fwToAscii (c : Char) : Char :=
  if c = '０' then '0' else if c = '１' then '1' else if c = '２' then '2'
  else if c = '３' then '3' else if c = '４' then '4' else if c = '５' then '5'
  else if c = '６' then '6' else if c = '７' then '7' else if c = '８' then '8'
  else if c = '９' then '9' else if c = '，' then ',' else if c = '．' then '.'
  else c

/-- Python `text.translate(FULLWIDTH_TO_ASCII)`. -/
def pyTranslateFW (s : String) : String := ⟨s.toList.map fwToAscii⟩

/-- ASCII lower-casing, for the `re.IGNORECASE` comparisons. -/
def lowAscii (c : Char) : Char :=
  if 'A' ≤ c && c ≤ 'Z' then Char.ofNat (c.toNat + 32) else c

/-- Natural number denoted by a list of ASCII digits (most significant first). -/
def digitsToNat (l : List Char) : Nat := l.foldl (fun a c => a * 10 + digVal c) 0

/-- Zero-padded decimal rendering of width 2 (`%02d`). -/
def pad2 (n : Nat) : String := if n < 10 then "0" ++ toString n else toString n

/-- Zero-padded decimal rendering of width 4 (`%04d`). -/
def pad4 (n : Nat) : String :=
  if n < 10 then "000" ++ toString n
  else if n < 100 then "00" ++ toString n
  else if n < 1000 then "0" ++ toString n
  else toString n

/-! ## Python `float(str)`

`pyFloat s = some q` models a successful `float(s)` call returning the value
`q`; `none` models the `ValueError` raised for a malformed literal.  The
model covers finite decimal literals (optional sign, digits with optional
fraction and exponent), which is the repertoire the scrapers feed it;
full-width digits are accepted the way CPython's unicode digit conversion
does. -/

/-- A digit as accepted by `float()`: ASCII or full-width forms. -/
def isPyNumDig (c : Char) : Bool := isDig (fwToAscii c)

/-- Value of a `float()` digit. -/
def pyNumDigVal (c : Char) : Nat := digVal (fwToAscii c)

/-- Digits to a natural number, accepting full-width digits. -/
def pyDigitsToNat (l : List Char) : Nat := l.foldl (fun a c => a * 10 + pyNumDigVal c) 0

/-- Mantissa part of a float literal: `digits`, `digits.`, `digits.digits`
or `.digits`; returns its value and the remaining characters. -/
def pyFloatMantissa (l : List Char) : Option (ℚ × List Char) :=
  let ip := l.takeWhile isPyNumDig
  let rest := l.drop ip.length
  match rest with
  | '.' :: t =>
      let fp := t.takeWhile isPyNumDig
      if ip.isEmpty && fp.isEmpty then none
      else some ((pyDigitsToNat ip : ℚ) + (pyDigitsToNat fp : ℚ) / ((10 : ℚ) ^ fp.length),
                 t.drop fp.length)
  | _ =>
      if ip.isEmpty then none
      else some ((pyDigitsToNat ip : ℚ), rest)

/-- Optional exponent part `e±digits`; `none` means a malformed exponent. -/
def pyFloatExp (l : List Char) : Option (ℤ × List Char) :=
  match l with
  | c :: t =>
      if c = 'e' || c = 'E' then
        match t with
        | s :: t2 =>
            if s = '+' || s = '-' then
              let ds := t2.takeWhile isPyNumDig
              if ds.isEmpty then none
              else some (if s = '-' then -(pyDigitsToNat ds : ℤ) else (pyDigitsToNat ds : ℤ),
                         t2.drop ds.length)
            else
              let ds := t.takeWhile isPyNumDig
              if ds.isEmpty then none else some ((pyDigitsToNat ds : ℤ), t.drop ds.length)
        | [] => none
      else some (0, l)
  | [] => some (0, l)

/-- `float(s)` on a finite decimal literal. -/
def pyFloat (s : String) : Option ℚ :=
  let l := (pyStrip s).toList
  let (sgn, body) :=
    match l with
    | '+' :: t => ((1 : ℚ), t)
    | '-' :: t => ((-1 : ℚ), t)
    | _ => ((1 : ℚ), l)
  match pyFloatMantissa body with
  | none => none
  | some (m, rest) =>
      match pyFloatExp rest with
      | none => none
      | some (e, rest2) =>
          if rest2.isEmpty then some (sgn * m * (10 : ℚ) ^ e) else none

/-! ## `parse_price` from `scrape_hlj.py`

```python
REGX_YEN_STR = re.compile(r"¥|JPY|\s+|,")

def parse_price(text: str) -> float | None:
    try:
        return float(REGX_YEN_STR.sub("", text or ""))
    except ValueError:
        return None
```
-/

/-- One left-to-right pass of `REGX_YEN_STR.sub("", ·)`: removes every `¥`,
literal `JPY`, whitespace run and comma (`J` is none of the earlier
alternatives, so matching `JPY` first is order-faithful). -/
def yenSub : List Char → List Char
  | [] => []
  | 'J' :: 'P' :: 'Y' :: t => yenSub t
  | c :: t =>
      if c = '¥' || c = ',' || pyIsSpace c then yenSub t else c :: yenSub t

/-- `parse_price` of `scrape_hlj.py` (also `scrape.py`). -/
def parse_price_hlj (text : String) : Option ℚ := pyFloat ⟨yenSub text.toList⟩

/-- Exceptions raised by the modelled Python operations. -/
inductive PyExc where
  | valueError
  | attributeError
  | invalidOperation
  deriving DecidableEq, Repr

deriving instance DecidableEq for Except

/-- `parse_price` of `scrape_hlj.py` with the exception flow explicit: the
body calls `float` (which may raise `ValueError`) inside `try/except`. -/
def parse_price_hlj_x (text : String) : Except PyExc (Option ℚ) :=
  match pyFloat ⟨yenSub text.toList⟩ with
  | some v => .ok (some v)
  | none => .ok none

/-! ## `parse_price` from `scrape_bandai_hobby.py`

```python
REGX_PRICE_VALUE = re.compile(r"([0-9][0-9,]*(?:\.[0-9]+)?)\s*(?=円|yen)", re.IGNORECASE)
REGX_ANY_NUMBER = re.compile(r"[0-9][0-9,]*(?:\.[0-9]+)?")

def parse_price(text):
    normalized_text = (text or "").translate(FULLWIDTH_TO_ASCII)
    matches = REGX_PRICE_VALUE.findall(normalized_text)
    if matches:
        try:
            return max(float(value.replace(",", "")) for value in matches)
        except ValueError:
            return None
    fallback_matches = REGX_ANY_NUMBER.findall(normalized_text)
    if fallback_matches:
        try:
            return max(float(value.replace(",", "")) for value in fallback_matches)
        except ValueError:
            return None
    return None
```
-/

/-- The numeric token `[0-9][0-9,]*(?:\.[0-9]+)?` at the head of the input.
The token is a prefix of the input, so the remainder after a match is
`l.drop tok.length`.  Shrinking the greedy parts can never rescue a failed
continuation of these patterns (the character after any shorter choice is a
digit, comma or dot, which none of the continuations accept), so the
maximal munch below is the backtracking result. -/
def numTokenAt (l : List Char) : Option (List Char) :=
  match l with
  | c :: cs =>
      if isDig c then
        let run := cs.takeWhile (fun d => isDig d || d = ',')
        match cs.drop run.length with
        | '.' :: ds =>
            let fr := ds.takeWhile isDig
            if fr.isEmpty then some (c :: run)
            else some (c :: run ++ '.' :: fr)
        | _ => some (c :: run)
      else none
  | [] => none

theorem length_dropWhile_le (p : Char → Bool) (l : List Char) :
    (l.dropWhile p).length ≤ l.length := by
  induction l with
  | nil => simp [List.dropWhile]
  | cons c t ih =>
      by_cases h : p c = true <;> simp [List.dropWhile, h] <;> omega

theorem numTokenAt_pos {l : List Char} {tok : List Char}
    (h : numTokenAt l = some tok) : 0 < tok.length ∧ 0 < l.length := by
  match l with
  | [] => simp [numTokenAt] at h
  | c :: cs =>
      refine ⟨?_, by simp⟩
      simp only [numTokenAt] at h
      by_cases hc : isDig c = true
      · simp only [hc, if_true] at h
        split at h
        · split at h <;> (cases h; simp)
        · cases h; simp
      · simp [hc] at h

/-- Case-insensitive test for the lookahead `(?=円|yen)`. -/
def yenAhead (l : List Char) : Bool :=
  match l with
  | '円' :: _ => true
  | a :: b :: c :: _ => lowAscii a = 'y' && lowAscii b = 'e' && lowAscii c = 'n'
  | a :: b :: [] => lowAscii a = 'y' && lowAscii b = 'e' && false
  | _ => false

/-- `REGX_PRICE_VALUE.findall`: scan left to right; a match consumes the
numeric token and the `\s*` before the zero-width lookahead; a failed
position advances by one character.  Every step strictly shortens the
input, so fuel `l.length` (supplied by `findPriceTokens`) never runs out
before the scan finishes. -/
def findPriceTokensF : Nat → List Char → List String
  | 0, _ => []
  | fuel + 1, l =>
      match numTokenAt l with
      | some tok =>
          let afterWs := (l.drop tok.length).dropWhile pyIsSpace
          if yenAhead afterWs then
            (⟨tok⟩ : String) :: findPriceTokensF fuel afterWs
          else
            match l with
            | _ :: cs => findPriceTokensF fuel cs
            | [] => []
      | none =>
          match l with
          | _ :: cs => findPriceTokensF fuel cs
          | [] => []

/-- `REGX_PRICE_VALUE.findall`. -/
def findPriceTokens (l : List Char) : List String := findPriceTokensF l.length l

/-- `REGX_ANY_NUMBER.findall`: same scan without the lookahead. -/
def findAnyNumberTokensF : Nat → List Char → List String
  | 0, _ => []
  | fuel + 1, l =>
      match numTokenAt l with
      | some tok => (⟨tok⟩ : String) :: findAnyNumberTokensF fuel (l.drop tok.length)
      | none =>
          match l with
          | _ :: cs => findAnyNumberTokensF fuel cs
          | [] => []

/-- `REGX_ANY_NUMBER.findall`. -/
def findAnyNumberTokens (l : List Char) : List String := findAnyNumberTokensF l.length l

/-- `value.replace(",", "")`. -/
def dropCommas (s : String) : String := ⟨s.toList.filter (· ≠ ',')⟩

/-- `float(value.replace(",", ""))` over a list of tokens: `none` as soon
as one conversion raises `ValueError`. -/
def floatsOfTokens : List String → Option (List ℚ)
  | [] => some []
  | t :: ts =>
      match pyFloat (dropCommas t) with
      | none => none
      | some v =>
          match floatsOfTokens ts with
          | none => none
          | some vs => some (v :: vs)

/-- `max(float(value.replace(",", "")) for value in ts)` under `try/except
ValueError`: `none` when some conversion raises (never for tokens produced
by the patterns above). -/
def maxOfTokens (ts : List String) : Option ℚ :=
  match floatsOfTokens ts with
  | none => none
  | some [] => none
  | some (v :: vs) => some (vs.foldl max v)

/-- `parse_price` of `scrape_bandai_hobby.py`. -/
def parse_price_bandai (text : String) : Option ℚ :=
  let n := (pyTranslateFW text).toList
  let ms := findPriceTokens n
  if ms.isEmpty then
    let fb := findAnyNumberTokens n
    if fb.isEmpty then none else maxOfTokens fb
  else maxOfTokens ms

/-- `parse_price` of `scrape_bandai_hobby.py` with the exception flow
explicit: both `max(float(...))` blocks sit in `try/except ValueError`. -/
def parse_price_bandai_x (text : String) : Except PyExc (Option ℚ) :=
  .ok (parse_price_bandai text)

/-! ## `to_pre_tax_yen` from `scrape_bandai_hobby.py`

```python
TAX_MULTIPLIER = Decimal("1.10")

def to_pre_tax_yen(price_including_tax):
    if price_including_tax is None:
        return None
    pretax = (Decimal(str(price_including_tax)) / TAX_MULTIPLIER).quantize(
        Decimal("1"), rounding=ROUND_HALF_UP)
    return int(pretax)
```
-/

/-- `Decimal.quantize(Decimal("1"), rounding=ROUND_HALF_UP)`: round to the
nearest integer, ties away from zero. -/
def roundHalfUp (q : ℚ) : ℤ :=
  if 0 ≤ q then ⌊q + 1 / 2⌋ else -⌊-q + 1 / 2⌋

/-- The fixed multiplier `Decimal("1.10")`. -/
def TAX_MULTIPLIER : ℚ := 11 / 10

/-- `to_pre_tax_yen` of `scrape_bandai_hobby.py` (exact-decimal value
model, defined on the finite inputs whose quantize succeeds; the raising
behaviour is modelled by `to_pre_tax_yen_x`). -/
def to_pre_tax_yen : Option ℚ → Option ℤ
  | none => none
  | some x => some (roundHalfUp (x / TAX_MULTIPLIER))

/-- The precision of the default `decimal` context (`getcontext().prec`). -/
def DECIMAL_PREC : Nat := 28

/-- `to_pre_tax_yen` with the exception flow explicit.  Its body has no
`try/except`, and `Decimal.quantize` under the default context raises
`InvalidOperation` (which is trapped, i.e. raised as an exception) whenever
the coefficient of the quantized result would exceed the context precision
of 28 digits — that is, whenever the rounded pre-tax amount has 29 or more
digits.  The finite-rational carrier covers the finite inputs; infinite
operands (a `float("inf")` price) raise `InvalidOperation` in `quantize`
as well and lie outside this carrier. -/
def to_pre_tax_yen_x (p : Option ℚ) : Except PyExc (Option ℤ) :=
  match p with
  | none => .ok none
  | some x =>
      let pretax := roundHalfUp (x / TAX_MULTIPLIER)
      if pretax.natAbs < 10 ^ DECIMAL_PREC then .ok (some pretax)
      else .error .invalidOperation

/-! ## `parse_release_date` from `scrape_bandai_hobby.py`

```python
REGX_RELEASE_DATE_JP = re.compile(r"(\d{4})\s*年\s*(\d{1,2})\s*月(?:\s*(\d{1,2})\s*日)?")

def parse_release_date(text):
    normalized_text = (text or "").translate(FULLWIDTH_TO_ASCII).strip()
    if not normalized_text:
        return None
    match = REGX_RELEASE_DATE_JP.search(normalized_text)
    if match:
        year = int(match.group(1)); month = int(match.group(2))
        day = int(match.group(3) or "1")
        if 1 <= month <= 12 and 1 <= day <= 31:
            return f"{year:04d}-{month:02d}-{day:02d}T00:00:00Z"
    return normalized_text
```
-/

/-- Exactly four digits at the head: their value and the rest. -/
def fourDigits (l : List Char) : Option (Nat × List Char) :=
  match l with
  | a :: b :: c :: d :: t =>
      if isDig a && isDig b && isDig c && isDig d then
        some (digitsToNat [a, b, c, d], t)
      else none
  | _ => none

/-- `\s*` + a required character: consume whitespace, then the character. -/
def wsThenChar (ch : Char) (l : List Char) : Option (List Char) :=
  match l.dropWhile pyIsSpace with
  | c :: t => if c = ch then some t else none
  | [] => none

/-- `(\d{1,2})\s*X` with the greedy two-digit choice tried first and the
one-digit choice as backtracking fallback; returns the group value and the
rest after `X`. -/
def oneTwoDigitsThen (ch : Char) (l : List Char) : Option (Nat × List Char) :=
  match l with
  | a :: b :: t =>
      if isDig a then
        if isDig b then
          match wsThenChar ch t with
          | some t2 => some (digitsToNat [a, b], t2)
          | none =>
              match wsThenChar ch (b :: t) with
              | some t2 => some (digVal a, t2)
              | none => none
        else
          match wsThenChar ch (b :: t) with
          | some t2 => some (digVal a, t2)
          | none => none
      else none
  | [a] =>
      if isDig a then
        match wsThenChar ch [] with
        | some t2 => some (digVal a, t2)
        | none => none
      else none
  | [] => none

/-- A match of `REGX_RELEASE_DATE_JP` anchored at the current position:
`(year, month, optional day)`. -/
def jpDateAt (l : List Char) : Option (Nat × Nat × Option Nat) :=
  match fourDigits l with
  | none => none
  | some (y, r1) =>
      match wsThenChar '年' r1 with
      | none => none
      | some r2 =>
          match oneTwoDigitsThen '月' (r2.dropWhile pyIsSpace) with
          | none => none
          | some (m, r3) =>
              match oneTwoDigitsThen '日' (r3.dropWhile pyIsSpace) with
              | some (d, _) => some (y, m, some d)
              | none => some (y, m, none)

/-- `REGX_RELEASE_DATE_JP.search`: first position with a match. -/
def jpDateSearch : List Char → Option (Nat × Nat × Option Nat)
  | [] => none
  | c :: t =>
      match jpDateAt (c :: t) with
      | some r => some r
      | none => jpDateSearch t

/-- `parse_release_date` of `scrape_bandai_hobby.py`. -/
def parse_release_date (text : String) : Option String :=
  let n := pyStrip (pyTranslateFW text)
  if n = "" then none
  else
    match jpDateSearch n.toList with
    | some (y, m, d?) =>
        let d := d?.getD 1
        if 1 ≤ m ∧ m ≤ 12 ∧ 1 ≤ d ∧ d ≤ 31 then
          some (pad4 y ++ "-" ++ pad2 m ++ "-" ++ pad2 d ++ "T00:00:00Z")
        else some n
    | none => some n

/-! ## `parse_rfc3339` from `scrape_hlj_details.py`

```python
def parse_rfc3339(date_text):
    if not date_text:
        return None
    try:
        date_value = datetime.strptime(date_text, "%Y/%m/%d")
        return date_value.strftime("%Y-%m-%dT00:00:00Z")
    except ValueError:
        return None
```

`strptime` with that format requires the whole string to be
`\d{4}` `/` `(1[0-2]|0[1-9]|[1-9])` `/` `(3[01]|[12]\d|0[1-9]|[1-9])`
and the resulting calendar date to be valid (`datetime` checks the day
against the month length, and the year must be ≥ 1). -/

/-- Month field of `strptime %m`: two-digit form preferred, else one digit;
the field must be followed by `/`, which drives the backtracking. -/
def strpMonth (l : List Char) : Option (Nat × List Char) :=
  match l with
  | a :: b :: t =>
      if isDig a && isDig b && 1 ≤ digitsToNat [a, b] && digitsToNat [a, b] ≤ 12 then
        match t with
        | '/' :: t2 => some (digitsToNat [a, b], t2)
        | _ =>
            if isDig a && 1 ≤ digVal a then
              match b :: t with
              | '/' :: t2 => some (digVal a, t2)
              | _ => none
            else none
      else if isDig a && 1 ≤ digVal a then
        match b :: t with
        | '/' :: t2 => some (digVal a, t2)
        | _ => none
      else none
  | _ => none

/-- Day field of `strptime %d` at the end of the string: greedy two-digit
form preferred; the leftover-input check (`unconverted data remains`) is a
`ValueError`, not a backtracking point. -/
def strpDayEnd (l : List Char) : Option Nat :=
  match l with
  | [a] => if isDig a && 1 ≤ digVal a then some (digVal a) else none
  | [a, b] =>
      if isDig a && isDig b && 1 ≤ digitsToNat [a, b] && digitsToNat [a, b] ≤ 31 then
        some (digitsToNat [a, b])
      else none
  | _ => none

/-- Gregorian month length, as validated by `datetime`. -/
def daysInMonth (y m : Nat) : Nat :=
  if m = 2 then
    if y % 4 = 0 ∧ (y % 100 ≠ 0 ∨ y % 400 = 0) then 29 else 28
  else if m = 4 ∨ m = 6 ∨ m = 9 ∨ m = 11 then 30
  else 31

/-- `datetime.strptime(s, "%Y/%m/%d")` returning `(y, m, d)`;
`none` models the `ValueError`. -/
def strptimeYmd (s : String) : Option (Nat × Nat × Nat) :=
  match fourDigits s.toList with
  | none => none
  | some (y, r1) =>
      match r1 with
      | '/' :: r2 =>
          match strpMonth r2 with
          | none => none
          | some (m, r3) =>
              match strpDayEnd r3 with
              | none => none
              | some d =>
                  if 1 ≤ y ∧ d ≤ daysInMonth y m then some (y, m, d) else none
      | _ => none

/-- `parse_rfc3339` of `scrape_hlj_details.py`. -/
def parse_rfc3339 (date_text : String) : Option String :=
  if date_text = "" then none
  else
    match strptimeYmd date_text with
    | some (y, m, d) =>
        some (pad4 y ++ "-" ++ pad2 m ++ "-" ++ pad2 d ++ "T00:00:00Z")
    | none => none

/-- `parse_rfc3339` with the exception flow explicit: the `strptime` call
(which may raise `ValueError`) sits inside `try/except ValueError`. -/
def parse_rfc3339_x (date_text : String) : Except PyExc (Option String) :=
  if date_text = "" then .ok none
  else
    match strptimeYmd date_text with
    | some (y, m, d) =>
        .ok (some (pad4 y ++ "-" ++ pad2 m ++ "-" ++ pad2 d ++ "T00:00:00Z"))
    | none => .ok none

/-! ## `collapse_ws` from `scrape_hlj_details.py`

```python
def collapse_ws(text):
    return re.sub(r"\s+", " ", text).strip()
```
-/

/-- `re.sub(r"\s+", " ", ·)`: fold each maximal whitespace run to one
space; the flag records whether the previous character was whitespace. -/
def foldWsAux : Bool → List Char → List Char
  | _, [] => []
  | inRun, c :: t =>
      if pyIsSpace c then
        if inRun then foldWsAux true t else ' ' :: foldWsAux true t
      else c :: foldWsAux false t

/-- `collapse_ws` of `scrape_hlj_details.py`. -/
def collapse_ws (text : String) : String := pyStrip ⟨foldWsAux false text.toList⟩

/-! ## `extract_hlj_details_section` from `scrape_hlj_details.py`

The loop body dispatches on `item_text.startswith(...)` and then calls
`REGX.search(item_text).group(...)` directly: when the guard passes but the
full pattern does not match, `search` returns `None` and `.group` raises
`AttributeError`.  The matchers below return `none` exactly when `search`
returns `None`.

```python
for item_text in items:
    if item_text.startswith("Release Date"):
        release_match = REGX_RELEASE_DATE.search(item_text)
        release_date = parse_rfc3339(release_match.group(1))
    elif item_text.startswith("Series"):
        series_match = REGX_SERIES.search(item_text)
        series = series_match.group(1)
    elif item_text.startswith("Item Type"):
        type_match = REGX_ITEM_TYPE.search(item_text)
        item_type = type_match.group(1)
    elif item_text.startswith("Item Size/Weight"):
        size_weight_match = REGX_SIZE_WEIGHT.search(item_text)
        l_val, w_val, h_val, weight_val, weight_unit = size_weight_match.groups()
        ...
        if weight_unit.lower() == "kg":
            weight *= 1000
```
-/

/-- Case-insensitive literal prefix (pattern given in lower case);
returns the rest of the input on success. -/
def dropCI : List Char → List Char → Option (List Char)
  | [], l => some l
  | _ :: _, [] => none
  | p :: ps, c :: cs => if lowAscii c = p then dropCI ps cs else none

/-- Python `str.startswith` (exact case). -/
def pyStartsWith (pre s : String) : Bool := pre.toList.isPrefixOf s.toList

/-- Exactly two digits at the head. -/
def twoDigits (l : List Char) : Option (Nat × List Char) :=
  match l with
  | a :: b :: t =>
      if isDig a && isDig b then some (digitsToNat [a, b], t) else none
  | _ => none

/-- `REGX_RELEASE_DATE = r"^Release Date:\s*(\d{4}/\d{2}/\d{2})$"`
(IGNORECASE): the captured date string, or `none` when `search` fails. -/
def relDateGroup (s : String) : Option String :=
  match dropCI "release date:".toList s.toList with
  | none => none
  | some r =>
      let r2 := r.dropWhile pyIsSpace
      match fourDigits r2 with
      | none => none
      | some (_, r3) =>
          match r3 with
          | '/' :: r4 =>
              match twoDigits r4 with
              | none => none
              | some (_, r5) =>
                  match r5 with
                  | '/' :: r6 =>
                      match twoDigits r6 with
                      | none => none
                      | some (_, r7) =>
                          if r7 = [] ∨ r7 = ['\n'] then some ⟨r2.take 10⟩ else none
                  | _ => none
          | _ => none

/-- Try `f k, f (k-1), …, f 0` and return the first success: the
backtracking order of a greedy quantifier. -/
def firstSome (f : Nat → Option α) : Nat → Option α
  | 0 => f 0
  | k + 1 => ((f (k + 1)).orElse fun _ => firstSome f k)

/-- The `\s*(.+)$` tail of `REGX_SERIES` / `REGX_ITEM_TYPE`, applied to the
text after the colon: `\s*` backtracks from its greedy maximum, `(.+)` is
greedy and must end at the end of the string or just before a final
newline. -/
def dotPlusGroup (r : List Char) : Option String :=
  let n := r.length
  let okPos : Nat → Bool := fun p =>
    p = n || (p + 1 = n && r.getLast? = some '\n')
  let wsMax := (r.takeWhile pyIsSpace).length
  firstSome
    (fun w =>
      let after := r.drop w
      let gmax := (after.takeWhile (· ≠ '\n')).length
      firstSome
        (fun g =>
          if 1 ≤ g && okPos (w + g) then some (⟨after.take g⟩ : String) else none)
        gmax)
    wsMax

/-- `REGX_SERIES = r"^Series:\s*(.+)$"` (IGNORECASE). -/
def seriesGroup (s : String) : Option String :=
  match dropCI "series:".toList s.toList with
  | none => none
  | some r => dotPlusGroup r

/-- `REGX_ITEM_TYPE = r"^Item Type:\s*(.+)$"` (IGNORECASE). -/
def itemTypeGroup (s : String) : Option String :=
  match dropCI "item type:".toList s.toList with
  | none => none
  | some r => dotPlusGroup r

/-- `[0-9]+(?:\.[0-9]+)?` at the head: value and rest (maximal munch; the
following `\s*x`, `\s*cm`, `\s*/`, `\s*(kg|g)` contexts never profit from a
shorter choice). -/
def swNum (l : List Char) : Option (ℚ × List Char) :=
  let ip := l.takeWhile isDig
  if ip.isEmpty then none
  else
    match l.drop ip.length with
    | '.' :: t =>
        let fp := t.takeWhile isDig
        if fp.isEmpty then some ((digitsToNat ip : ℚ), l.drop ip.length)
        else
          some ((digitsToNat ip : ℚ) + (digitsToNat fp : ℚ) / ((10 : ℚ) ^ fp.length),
                t.drop fp.length)
    | rest => some ((digitsToNat ip : ℚ), rest)

/-- `\s*` then a case-insensitive literal. -/
def wsThenCI (lit : String) (l : List Char) : Option (List Char) :=
  dropCI lit.toList (l.dropWhile pyIsSpace)

/-- `REGX_SIZE_WEIGHT` applied to the item text: the three dimensions, the
weight value and whether the unit group matched `kg` (else `g`). -/
def sizeWeightGroups (s : String) : Option (ℚ × ℚ × ℚ × ℚ × Bool) :=
  match dropCI "item size/weight:".toList s.toList with
  | none => none
  | some r =>
      match swNum (r.dropWhile pyIsSpace) with
      | none => none
      | some (lv, r1) =>
          match wsThenCI "x" r1 with
          | none => none
          | some r2 =>
              match swNum (r2.dropWhile pyIsSpace) with
              | none => none
              | some (wv, r3) =>
                  match wsThenCI "x" r3 with
                  | none => none
                  | some r4 =>
                      match swNum (r4.dropWhile pyIsSpace) with
                      | none => none
                      | some (hv, r5) =>
                          match wsThenCI "cm" r5 with
                          | none => none
                          | some r6 =>
                              match wsThenCI "/" r6 with
                              | none => none
                              | some r7 =>
                                  match swNum (r7.dropWhile pyIsSpace) with
                                  | none => none
                                  | some (wt, r8) =>
                                      match wsThenCI "kg" r8 with
                                      | some _ => some (lv, wv, hv, wt, true)
                                      | none =>
                                          match wsThenCI "g" r8 with
                                          | some _ => some (lv, wv, hv, wt, false)
                                          | none => none

/-- The local variables of `extract_hlj_details_section`, all `None`
initially. -/
structure DetailsAcc where
  releaseDate : Option String := none
  series : Option String := none
  itemType : Option String := none
  dimL : Option ℚ := none
  dimW : Option ℚ := none
  dimH : Option ℚ := none
  weight : Option ℚ := none
  deriving DecidableEq, Repr

/-- One iteration of the `for item_text in items` loop; `.error` models the
uncaught `AttributeError` from `.group(...)` on a failed `search`. -/
def parse_detail_item (acc : DetailsAcc) (s : String) : Except PyExc DetailsAcc :=
  if pyStartsWith "Release Date" s then
    match relDateGroup s with
    | some g => .ok { acc with releaseDate := parse_rfc3339 g }
    | none => .error .attributeError
  else if pyStartsWith "Series" s then
    match seriesGroup s with
    | some g => .ok { acc with series := some g }
    | none => .error .attributeError
  else if pyStartsWith "Item Type" s then
    match itemTypeGroup s with
    | some g => .ok { acc with itemType := some g }
    | none => .error .attributeError
  else if pyStartsWith "Item Size/Weight" s then
    match sizeWeightGroups s with
    | some (lv, wv, hv, wt, isKg) =>
        .ok { acc with dimL := some lv, dimW := some wv, dimH := some hv,
                       weight := some (if isKg then wt * 1000 else wt) }
    | none => .error .attributeError
  else .ok acc

/-- The item loop of `extract_hlj_details_section` over the inner texts of
the detail list; an exception in any iteration propagates. -/
def extract_hlj_details_items (items : List String) : Except PyExc DetailsAcc :=
  items.foldlM parse_detail_item {}

/-- `extract_hlj_details_section`: `return {}` when the locator is empty
(modelled as `none`), otherwise the fields accumulated by the loop. -/
def extract_hlj_details_section (items : List String) :
    Except PyExc (Option DetailsAcc) :=
  if items.isEmpty then .ok none
  else (extract_hlj_details_items items).map some

/-! ## The pagination walker

`scrape_hlj_search_page` (`scrape_hlj.py`) and `scrape_bandai_search_page`
(`scrape_bandai_hobby.py`) run the same per-item loop; they differ in how
an item URL is built from the `href`, which fields are required, what a row
contains, and in the stop conditions of the page loop.  The shared loop is
embedded once, parameterised by a `WalkerCfg`.

```python
seen = set(existing_urls)
latest_item_url = None
page_number = 1
while page_number <= max_pages:
    rows = []
    checkpoint_hit = False
    for item in raw_items:
        title = item.get("title", "").strip()
        href = item.get("href", "").strip()
        price_text = item.get("priceText", "").strip()
        item_url = <mkUrl>(href) if href else ""
        if page_number == 1 and not latest_item_url and item_url:
            latest_item_url = item_url
        if checkpoint_url and item_url == checkpoint_url:
            checkpoint_hit = True
            break
        if item_url in seen:
            continue
        seen.add(item_url)
        if not all(<required fields>):
            ...log...
            continue
        rows.append(<row>)
    write_rows(fd, rows)
    if checkpoint_hit: break
    <site-specific next-page logic or break>
    page_number += 1
return latest_item_url
```
-/

/-- The dictionary produced by the listing-page extractor for one product
card (`releaseDateText` is only present on Bandai cards and is the empty
string for HLJ cards). -/
structure RawItem where
  title : String
  href : String
  priceText : String
  releaseDateText : String := ""
  deriving DecidableEq, Repr

/-- A row of `./data/raw/<group>.jsonl` written by `scrape_hlj.py`. -/
structure HljRow where
  title : String
  url : String
  msrpJPY : Option ℚ
  deriving DecidableEq, Repr

/-- A row of `./data/raw/<group>.jsonl` written by `scrape_bandai_hobby.py`. -/
structure BandaiRow where
  titleJP : String
  url : String
  msrpJPY : Option ℤ
  releaseDate : Option String
  deriving DecidableEq, Repr

/-- The site-specific parts of the shared per-item loop. -/
structure WalkerCfg (ρ : Type) where
  /-- URL built from a non-empty stripped `href`. -/
  mkUrl : String → String
  /-- `all([...])` over the required fields (stripped title, href, price
  text). -/
  valid : String → String → String → Bool
  /-- The emitted row, from stripped title, item URL, stripped price text
  and stripped release-date text. -/
  row : String → String → String → String → ρ
  /-- The `url` field of a row. -/
  urlOf : ρ → String
  url_row : ∀ t u p r, urlOf (row t u p r) = u

/-- `item_url = <mkUrl>(href) if href else ""` on the stripped href. -/
def itemUrl (cfg : WalkerCfg ρ) (it : RawItem) : String :=
  let href := pyStrip it.href
  if href = "" then "" else cfg.mkUrl href

/-- `if page_number == 1 and not latest_item_url and item_url:`. -/
def latestUpd (pn : Nat) (latest : Option String) (u : String) : Option String :=
  if pn = 1 ∧ latest = none ∧ u ≠ "" then some u else latest

/-- `if checkpoint_url and item_url == checkpoint_url:` — a `None` or empty
checkpoint is falsy. -/
def cpHitB (cp : Option String) (u : String) : Bool :=
  match cp with
  | some c => decide (c ≠ "") && decide (u = c)
  | none => false

/-- Result of the per-item loop over one page. -/
structure StepOut (ρ : Type) where
  rows : List ρ
  seen : List String
  latest : Option String
  hit : Bool
  deriving Repr

/-- The shared per-item loop (`for item in raw_items`). -/
def stepItems (cfg : WalkerCfg ρ) (cp : Option String) (pn : Nat) :
    List RawItem → List String → Option String → StepOut ρ
  | [], seen, latest => ⟨[], seen, latest, false⟩
  | it :: rest, seen, latest =>
      let title := pyStrip it.title
      let href := pyStrip it.href
      let priceText := pyStrip it.priceText
      let relText := pyStrip it.releaseDateText
      let u := itemUrl cfg it
      let latest' := latestUpd pn latest u
      if cpHitB cp u then ⟨[], seen, latest', true⟩
      else if u ∈ seen then stepItems cfg cp pn rest seen latest'
      else if cfg.valid title href priceText then
        let out := stepItems cfg cp pn rest (u :: seen) latest'
        ⟨cfg.row title u priceText relText :: out.rows, out.seen, out.latest, out.hit⟩
      else stepItems cfg cp pn rest (u :: seen) latest'

/-- Result of a whole walker run: the per-page batches passed to
`write_rows` (in order), the final `seen` set and the returned
`latest_item_url`. -/
structure RunOut (ρ : Type) where
  batches : List (List ρ)
  seen : List String
  latest : Option String
  deriving Repr

/-- The page loop shared by both walkers.  `pages pn` is what the extractor
returns on page `pn`; `stopAfter pn hit` folds together the site-specific
break conditions evaluated after `write_rows`.  The fuel is
`max_pages - page_number + 1`, so fuel `0` is exactly the
`page_number <= max_pages` exit. -/
def runLoop (cfg : WalkerCfg ρ) (cp : Option String) (pages : Nat → List RawItem)
    (stopAfter : Nat → Bool → Bool) :
    Nat → Nat → List String → Option String → RunOut ρ
  | 0, _, seen, latest => ⟨[], seen, latest⟩
  | fuel + 1, pn, seen, latest =>
      let a := stepItems cfg cp pn (pages pn) seen latest
      if stopAfter pn a.hit then ⟨[a.rows], a.seen, a.latest⟩
      else
        let t := runLoop cfg cp pages stopAfter fuel (pn + 1) a.seen a.latest
        ⟨a.rows :: t.batches, t.seen, t.latest⟩

/-- `scrape_hlj.py` row constructor and required fields
(`all([title, href, price_text])`). -/
def hljCfg : WalkerCfg HljRow where
  mkUrl h := "https://www.hlj.com" ++ h
  valid t h p := decide (t ≠ "") && decide (h ≠ "") && decide (p ≠ "")
  row t u p _ := ⟨t, u, parse_price_hlj p⟩
  urlOf r := r.url
  url_row _ _ _ _ := rfl

/-- `scrape_bandai_hobby.py` row constructor and required fields
(`all([title, href])`); the URL is built by `urljoin`, an external library
function modelled as a parameter. -/
def bandaiCfg (join : String → String) : WalkerCfg BandaiRow where
  mkUrl := join
  valid t h _ := decide (t ≠ "") && decide (h ≠ "")
  row t u p r := ⟨t, u, to_pre_tax_yen (parse_price_bandai p), parse_release_date r⟩
  urlOf r := r.url
  url_row _ _ _ _ := rfl

/-- An HLJ search listing as the walker observes it: the items per page
number, the page count read from the pager of the first page, and whether a
visible `>` link exists after a given page. -/
structure HljSite where
  pages : Nat → List RawItem
  maxPages : Nat
  nextVisible : Nat → Bool

/-- The hlj stop conditions after `write_rows`: checkpoint hit, or no
visible next link. -/
def hljStop (site : HljSite) (pn : Nat) (hit : Bool) : Bool :=
  hit || !site.nextVisible pn

/-- The page loop of `scrape_hlj_search_page` from an arbitrary loop
state. -/
def hljSearchLoop (site : HljSite) (cp : Option String)
    (fuel pn : Nat) (seen : List String) (latest : Option String) : RunOut HljRow :=
  runLoop hljCfg cp site.pages (hljStop site) fuel pn seen latest

/-- `scrape_hlj_search_page(context, name, url, fd, existing_urls,
checkpoint_url)`: the whole walker run of `scrape_hlj.py`. -/
def scrape_hlj_search_page (site : HljSite) (existing_urls : List String)
    (checkpoint_url : Option String) : RunOut HljRow :=
  hljSearchLoop site checkpoint_url site.maxPages 1 existing_urls none

/-- A Bandai brand listing as the walker observes it: items per page, the
pager's page count, the `href` of the next-list link (`none` when absent)
resolved to `next_url`, and the browser's current URL per page. -/
structure BandaiSite where
  pages : Nat → List RawItem
  maxPages : Nat
  nextUrl : Nat → Option String
  pageUrl : Nat → String

/-- The bandai stop conditions after `write_rows`: checkpoint hit, last
page reached, no next link, empty next URL, or next URL equal to the
current page. -/
def bandaiStop (site : BandaiSite) (pn : Nat) (hit : Bool) : Bool :=
  hit || decide (site.maxPages ≤ pn) ||
    (match site.nextUrl pn with
     | none => true
     | some nu => decide (nu = "") || decide (nu = site.pageUrl pn))

/-- The page loop of `scrape_bandai_search_page` from an arbitrary loop
state. -/
def bandaiSearchLoop (join : String → String) (site : BandaiSite)
    (cp : Option String) (fuel pn : Nat) (seen : List String)
    (latest : Option String) : RunOut BandaiRow :=
  runLoop (bandaiCfg join) cp site.pages (bandaiStop site) fuel pn seen latest

/-- `scrape_bandai_search_page`: the whole walker run of
`scrape_bandai_hobby.py`. -/
def scrape_bandai_search_page (join : String → String) (site : BandaiSite)
    (existing_urls : List String) (checkpoint_url : Option String) : RunOut BandaiRow :=
  bandaiSearchLoop join site checkpoint_url site.maxPages 1 existing_urls none

/-! ## The checkpoint store and the end of `main` (`scrape_hlj.py`)

```python
def load_group_checkpoint(path):
    if not path.exists():
        return None
    value = path.read_text(encoding="utf-8").strip()
    return value or None

def save_group_checkpoint(path, checkpoint_url):
    path.parent.mkdir(parents=True, exist_ok=True)
    path.write_text(f"{checkpoint_url}\n", encoding="utf-8")

# main, after the run:
if latest_item_url:
    save_group_checkpoint(checkpoint_path, latest_item_url)
```

A fetch of a listing page can fail (navigation error, timeout); the
exception propagates out of `scrape_hlj_search_page`, through `main`, and
the `save_group_checkpoint` call is never reached.  `runLoopE` is the page
loop with that failure mode explicit: `fetch pn` stands for the navigation
and waits that produce page `pn`'s items. -/

/-- Content written by `save_group_checkpoint`. -/
def save_group_checkpoint (checkpoint_url : String) : String :=
  checkpoint_url ++ "\n"

/-- `load_group_checkpoint`: `none` for a missing file or one whose
stripped content is empty. -/
def load_group_checkpoint (file : Option String) : Option String :=
  match file with
  | none => none
  | some s => let v := pyStrip s; if v = "" then none else some v

/-- The page loop with fallible page fetches.  Returns the batches already
written (and flushed) by `write_rows` and either the returned
`latest_item_url` or the propagated fetch error. -/
def runLoopE (cfg : WalkerCfg ρ) (cp : Option String)
    (fetch : Nat → Except Unit (List RawItem)) (stopAfter : Nat → Bool → Bool) :
    Nat → Nat → List String → Option String →
    List (List ρ) × Except Unit (Option String)
  | 0, _, _, latest => ([], .ok latest)
  | fuel + 1, pn, seen, latest =>
      match fetch pn with
      | .error e => ([], .error e)
      | .ok items =>
          let a := stepItems cfg cp pn items seen latest
          if stopAfter pn a.hit then ([a.rows], .ok a.latest)
          else
            let t := runLoopE cfg cp fetch stopAfter fuel (pn + 1) a.seen a.latest
            (a.rows :: t.1, t.2)

/-- The fallible page loop of `scrape_hlj_search_page`. -/
def hljSearchLoopE (site : HljSite) (cp : Option String)
    (fetch : Nat → Except Unit (List RawItem)) (fuel pn : Nat)
    (seen : List String) (latest : Option String) :
    List (List HljRow) × Except Unit (Option String) :=
  runLoopE hljCfg cp fetch (hljStop site) fuel pn seen latest

/-- The checkpoint file after `main`: on a propagated error the save call
is never reached; on success it is reached only when `latest_item_url` is
truthy. -/
def main_checkpoint_after (file : Option String)
    (res : Except Unit (Option String)) : Option String :=
  match res with
  | .error _ => file
  | .ok latest =>
      match latest with
      | some u => if u ≠ "" then some (save_group_checkpoint u) else file
      | none => file

/-! ## The concurrent detail fetcher (`scrape_hlj_details.py`)

```python
async def scrape_one_url(context, semaphore, url):
    async with semaphore:
        page = await context.new_page()
        try:
            for attempt in range(MAX_RETRIES + 1):
                try:
                    response = await page.goto(url, wait_until="domcontentloaded")
                    if response and response.status != 200:
                        return {"error": response.status, "url": url}
                    result = await extract_hlj_details_page(page)
                    if result:
                        return result
                    break
                except (PlaywrightTimeoutError, PlaywrightError):
                    if attempt < MAX_RETRIES:
                        await asyncio.sleep(2**attempt)
                        continue
                    break
            return {"error": "parse_failed", "url": url}
        except Exception as exc:
            return {"error": "scrape_exception", "url": url, "message": str(exc)}
        finally:
            await page.close()
```

The page fetch is external; what attempt `n` against a URL does is an
input, `script n`:
* `transient` — `goto` or the extraction waits raise a Playwright
  timeout/navigation error (retried with backoff);
* `httpErr c` — a response arrives with status `c ≠ 200` (immediate error
  record, no retry);
* `okRec d` — the navigation succeeds and extraction produces the record
  `d` (a non-empty dict, hence truthy);
* `exc m` — any other exception (e.g. the `AttributeError` of
  `extract_hlj_details_section`), caught by the outer handler.

In `scrape_worker`, results are consumed in completion order
(`asyncio.as_completed`); completion order is an arbitrary permutation of
the task list.  Error results are counted and printed; only success
results are written to the sink:

```python
for future in asyncio.as_completed(tasks):
    result = await future
    done += 1
    if "error" in result:
        err += 1
        print(f"ERROR: {result}")
        continue
    ok += 1
    fd.write(json.dumps(result, sort_keys=True, ensure_ascii=False) + "\n")
```
-/

/-- Outcome of one fetch attempt against a detail page. -/
inductive AttemptOutcome (δ : Type) where
  | transient
  | httpErr (code : Nat)
  | okRec (d : δ)
  | exc (msg : String)
  deriving DecidableEq, Repr

/-- The value returned by `scrape_one_url`: a detail record or one of the
three error dicts. -/
inductive FetchResult (δ : Type) where
  | success (d : δ)
  | errStatus (code : Nat) (url : String)
  | errParse (url : String)
  | errExc (url : String) (msg : String)
  deriving DecidableEq, Repr

/-- The retry loop of `scrape_one_url`: `attempt` counts from 0, the fuel
is `MAX_RETRIES + 1 - attempt` (both exhaustion paths return the
`parse_failed` record, like the `for`-loop falling through). -/
def scrapeAttempts (script : Nat → AttemptOutcome δ) (url : String)
    (maxRetries : Nat) : Nat → Nat → FetchResult δ
  | 0, _ => .errParse url
  | fuel + 1, attempt =>
      match script attempt with
      | .httpErr c => .errStatus c url
      | .okRec d => .success d
      | .exc m => .errExc url m
      | .transient =>
          if attempt < maxRetries then scrapeAttempts script url maxRetries fuel (attempt + 1)
          else .errParse url

/-- `scrape_one_url` for one URL whose per-attempt behaviour is `script`. -/
def scrape_one_url (script : Nat → AttemptOutcome δ) (url : String)
    (maxRetries : Nat) : FetchResult δ :=
  scrapeAttempts script url maxRetries (maxRetries + 1) 0

/-- `"error" in result`. -/
def isErrRec : FetchResult δ → Bool
  | .success _ => false
  | _ => true

/-- What `scrape_worker` writes to the shared sink, given the results in
completion order: only the non-error results, in that order. -/
def worker_sink (results : List (FetchResult δ)) : List δ :=
  results.filterMap fun r =>
    match r with
    | .success d => some d
    | _ => none

/-- The `err` counter at end of run. -/
def worker_err_count (results : List (FetchResult δ)) : Nat :=
  results.countP fun r => isErrRec r

/-- The `ok` counter at end of run. -/
def worker_ok_count (results : List (FetchResult δ)) : Nat :=
  results.countP fun r => !isErrRec r

/-! ## Invariants of the per-item loop -/

variable {ρ : Type}

theorem stepItems_nil (cfg : WalkerCfg ρ) (cp : Option String) (pn : Nat)
    (seen : List String) (latest : Option String) :
    stepItems cfg cp pn [] seen latest = ⟨[], seen, latest, false⟩ := rfl

theorem stepItems_cons_hit {cfg : WalkerCfg ρ} {cp : Option String} {pn : Nat}
    {it : RawItem} (rest : List RawItem) {seen : List String} {latest : Option String}
    (h1 : cpHitB cp (itemUrl cfg it) = true) :
    stepItems cfg cp pn (it :: rest) seen latest =
      ⟨[], seen, latestUpd pn latest (itemUrl cfg it), true⟩ := by
  simp [stepItems, h1]

theorem stepItems_cons_seen {cfg : WalkerCfg ρ} {cp : Option String} {pn : Nat}
    {it : RawItem} (rest : List RawItem) {seen : List String} {latest : Option String}
    (h1 : cpHitB cp (itemUrl cfg it) = false) (h2 : itemUrl cfg it ∈ seen) :
    stepItems cfg cp pn (it :: rest) seen latest =
      stepItems cfg cp pn rest seen (latestUpd pn latest (itemUrl cfg it)) := by
  simp [stepItems, h1, h2]

theorem stepItems_cons_emit {cfg : WalkerCfg ρ} {cp : Option String} {pn : Nat}
    {it : RawItem} (rest : List RawItem) {seen : List String} {latest : Option String}
    (h1 : cpHitB cp (itemUrl cfg it) = false) (h2 : itemUrl cfg it ∉ seen)
    (h3 : cfg.valid (pyStrip it.title) (pyStrip it.href) (pyStrip it.priceText) = true) :
    stepItems cfg cp pn (it :: rest) seen latest =
      ⟨cfg.row (pyStrip it.title) (itemUrl cfg it) (pyStrip it.priceText)
          (pyStrip it.releaseDateText) ::
        (stepItems cfg cp pn rest (itemUrl cfg it :: seen)
          (latestUpd pn latest (itemUrl cfg it))).rows,
       (stepItems cfg cp pn rest (itemUrl cfg it :: seen)
          (latestUpd pn latest (itemUrl cfg it))).seen,
       (stepItems cfg cp pn rest (itemUrl cfg it :: seen)
          (latestUpd pn latest (itemUrl cfg it))).latest,
       (stepItems cfg cp pn rest (itemUrl cfg it :: seen)
          (latestUpd pn latest (itemUrl cfg it))).hit⟩ := by
  simp [stepItems, h1, h2, h3]

theorem stepItems_cons_drop {cfg : WalkerCfg ρ} {cp : Option String} {pn : Nat}
    {it : RawItem} (rest : List RawItem) {seen : List String} {latest : Option String}
    (h1 : cpHitB cp (itemUrl cfg it) = false) (h2 : itemUrl cfg it ∉ seen)
    (h3 : cfg.valid (pyStrip it.title) (pyStrip it.href) (pyStrip it.priceText) = false) :
    stepItems cfg cp pn (it :: rest) seen latest =
      stepItems cfg cp pn rest (itemUrl cfg it :: seen)
        (latestUpd pn latest (itemUrl cfg it)) := by
  simp [stepItems, h1, h2, h3]

theorem stepItems_seen_mono {cfg : WalkerCfg ρ} {cp : Option String} {pn : Nat} :
    ∀ {items : List RawItem} {seen : List String} {latest : Option String} {u : String},
      u ∈ seen → u ∈ (stepItems cfg cp pn items seen latest).seen := by
  intro items
  induction items with
  | nil => intro seen latest u h; simpa [stepItems_nil] using h
  | cons it rest ih =>
      intro seen latest u h
      by_cases h1 : cpHitB cp (itemUrl cfg it) = true
      · rw [stepItems_cons_hit rest h1]; exact h
      · rw [Bool.not_eq_true] at h1
        by_cases h2 : itemUrl cfg it ∈ seen
        · rw [stepItems_cons_seen rest h1 h2]; exact ih h
        · by_cases h3 : cfg.valid (pyStrip it.title) (pyStrip it.href)
              (pyStrip it.priceText) = true
          · rw [stepItems_cons_emit rest h1 h2 h3]
            exact ih (List.mem_cons_of_mem _ h)
          · rw [Bool.not_eq_true] at h3
            rw [stepItems_cons_drop rest h1 h2 h3]
            exact ih (List.mem_cons_of_mem _ h)

theorem stepItems_rows_subset_seen {cfg : WalkerCfg ρ} {cp : Option String} {pn : Nat} :
    ∀ {items : List RawItem} {seen : List String} {latest : Option String}
      {r : ρ}, r ∈ (stepItems cfg cp pn items seen latest).rows →
      cfg.urlOf r ∈ (stepItems cfg cp pn items seen latest).seen := by
  intro items
  induction items with
  | nil => intro seen latest r h; simp [stepItems_nil] at h
  | cons it rest ih =>
      intro seen latest r h
      by_cases h1 : cpHitB cp (itemUrl cfg it) = true
      · rw [stepItems_cons_hit rest h1] at h ⊢; simp at h
      · rw [Bool.not_eq_true] at h1
        by_cases h2 : itemUrl cfg it ∈ seen
        · rw [stepItems_cons_seen rest h1 h2] at h ⊢; exact ih h
        · by_cases h3 : cfg.valid (pyStrip it.title) (pyStrip it.href)
              (pyStrip it.priceText) = true
          · rw [stepItems_cons_emit rest h1 h2 h3] at h ⊢
            simp only [List.mem_cons] at h
            rcases h with h | h
            · subst h
              rw [cfg.url_row]
              exact stepItems_seen_mono (List.mem_cons_self _ _)
            · exact ih h
          · rw [Bool.not_eq_true] at h3
            rw [stepItems_cons_drop rest h1 h2 h3] at h ⊢
            exact ih h

theorem stepItems_not_emitted_of_mem_seen {cfg : WalkerCfg ρ} {cp : Option String}
    {pn : Nat} :
    ∀ {items : List RawItem} {seen : List String} {latest : Option String}
      {u : String}, u ∈ seen →
      ∀ {r : ρ}, r ∈ (stepItems cfg cp pn items seen latest).rows →
      cfg.urlOf r ≠ u := by
  intro items
  induction items with
  | nil => intro seen latest u hu r hr; simp [stepItems_nil] at hr
  | cons it rest ih =>
      intro seen latest u hu r hr
      by_cases h1 : cpHitB cp (itemUrl cfg it) = true
      · rw [stepItems_cons_hit rest h1] at hr; simp at hr
      · rw [Bool.not_eq_true] at h1
        by_cases h2 : itemUrl cfg it ∈ seen
        · rw [stepItems_cons_seen rest h1 h2] at hr; exact ih hu hr
        · by_cases h3 : cfg.valid (pyStrip it.title) (pyStrip it.href)
              (pyStrip it.priceText) = true
          · rw [stepItems_cons_emit rest h1 h2 h3] at hr
            simp only [List.mem_cons] at hr
            rcases hr with hr | hr
            · subst hr
              rw [cfg.url_row]
              intro hEq
              exact h2 (hEq ▸ hu)
            · exact ih (List.mem_cons_of_mem _ hu) hr
          · rw [Bool.not_eq_true] at h3
            rw [stepItems_cons_drop rest h1 h2 h3] at hr
            exact ih (List.mem_cons_of_mem _ hu) hr

theorem stepItems_rows_nodup {cfg : WalkerCfg ρ} {cp : Option String} {pn : Nat} :
    ∀ {items : List RawItem} {seen : List String} {latest : Option String},
      ((stepItems cfg cp pn items seen latest).rows.map cfg.urlOf).Nodup := by
  intro items
  induction items with
  | nil => intro seen latest; simp [stepItems_nil]
  | cons it rest ih =>
      intro seen latest
      by_cases h1 : cpHitB cp (itemUrl cfg it) = true
      · rw [stepItems_cons_hit rest h1]; simp
      · rw [Bool.not_eq_true] at h1
        by_cases h2 : itemUrl cfg it ∈ seen
        · rw [stepItems_cons_seen rest h1 h2]; exact ih
        · by_cases h3 : cfg.valid (pyStrip it.title) (pyStrip it.href)
              (pyStrip it.priceText) = true
          · rw [stepItems_cons_emit rest h1 h2 h3]
            simp only [List.map_cons, List.nodup_cons]
            refine ⟨?_, ih⟩
            rw [cfg.url_row]
            intro hmem
            rcases List.mem_map.1 hmem with ⟨r, hr, hru⟩
            exact stepItems_not_emitted_of_mem_seen (List.mem_cons_self _ _) hr hru
          · rw [Bool.not_eq_true] at h3
            rw [stepItems_cons_drop rest h1 h2 h3]; exact ih

theorem stepItems_latest_some {cfg : WalkerCfg ρ} {cp : Option String} {pn : Nat} :
    ∀ {items : List RawItem} {seen : List String} {x : String},
      (stepItems cfg cp pn items seen (some x)).latest = some x := by
  intro items
  induction items with
  | nil => intro seen x; simp [stepItems_nil]
  | cons it rest ih =>
      intro seen x
      have hupd : latestUpd pn (some x) (itemUrl cfg it) = some x := by
        simp [latestUpd]
      by_cases h1 : cpHitB cp (itemUrl cfg it) = true
      · rw [stepItems_cons_hit rest h1, hupd]
      · rw [Bool.not_eq_true] at h1
        by_cases h2 : itemUrl cfg it ∈ seen
        · rw [stepItems_cons_seen rest h1 h2, hupd]; exact ih
        · by_cases h3 : cfg.valid (pyStrip it.title) (pyStrip it.href)
              (pyStrip it.priceText) = true
          · rw [stepItems_cons_emit rest h1 h2 h3, hupd]; exact ih
          · rw [Bool.not_eq_true] at h3
            rw [stepItems_cons_drop rest h1 h2 h3, hupd]; exact ih

/-! ## Invariants of the page loop -/

theorem runLoop_zero (cfg : WalkerCfg ρ) (cp : Option String)
    (pages : Nat → List RawItem) (stopAfter : Nat → Bool → Bool)
    (pn : Nat) (seen : List String) (latest : Option String) :
    runLoop cfg cp pages stopAfter 0 pn seen latest = ⟨[], seen, latest⟩ := rfl

theorem runLoop_succ_stop {cfg : WalkerCfg ρ} {cp : Option String}
    {pages : Nat → List RawItem} {stopAfter : Nat → Bool → Bool}
    (fuel : Nat) {pn : Nat} {seen : List String} {latest : Option String}
    (h : stopAfter pn (stepItems cfg cp pn (pages pn) seen latest).hit = true) :
    runLoop cfg cp pages stopAfter (fuel + 1) pn seen latest =
      ⟨[(stepItems cfg cp pn (pages pn) seen latest).rows],
       (stepItems cfg cp pn (pages pn) seen latest).seen,
       (stepItems cfg cp pn (pages pn) seen latest).latest⟩ := by
  simp [runLoop, h]

theorem runLoop_succ_cont {cfg : WalkerCfg ρ} {cp : Option String}
    {pages : Nat → List RawItem} {stopAfter : Nat → Bool → Bool}
    (fuel : Nat) {pn : Nat} {seen : List String} {latest : Option String}
    (h : stopAfter pn (stepItems cfg cp pn (pages pn) seen latest).hit = false) :
    runLoop cfg cp pages stopAfter (fuel + 1) pn seen latest =
      ⟨(stepItems cfg cp pn (pages pn) seen latest).rows ::
        (runLoop cfg cp pages stopAfter fuel (pn + 1)
          (stepItems cfg cp pn (pages pn) seen latest).seen
          (stepItems cfg cp pn (pages pn) seen latest).latest).batches,
       (runLoop cfg cp pages stopAfter fuel (pn + 1)
          (stepItems cfg cp pn (pages pn) seen latest).seen
          (stepItems cfg cp pn (pages pn) seen latest).latest).seen,
       (runLoop cfg cp pages stopAfter fuel (pn + 1)
          (stepItems cfg cp pn (pages pn) seen latest).seen
          (stepItems cfg cp pn (pages pn) seen latest).latest).latest⟩ := by
  simp [runLoop, h]

theorem runLoop_not_emitted_of_mem_seen {cfg : WalkerCfg ρ} {cp : Option String}
    {pages : Nat → List RawItem} {stopAfter : Nat → Bool → Bool} :
    ∀ {fuel pn : Nat} {seen : List String} {latest : Option String} {u : String},
      u ∈ seen →
      u ∉ ((runLoop cfg cp pages stopAfter fuel pn seen latest).batches.join.map cfg.urlOf) := by
  intro fuel
  induction fuel with
  | zero => intro pn seen latest u hu; simp [runLoop_zero]
  | succ fuel ih =>
      intro pn seen latest u hu
      by_cases h : stopAfter pn (stepItems cfg cp pn (pages pn) seen latest).hit = true
      · rw [runLoop_succ_stop fuel h]
        simp only [List.join_cons, List.join_nil, List.append_nil, List.mem_map]
        rintro ⟨r, hr, hru⟩
        exact stepItems_not_emitted_of_mem_seen hu hr hru
      · rw [Bool.not_eq_true] at h
        rw [runLoop_succ_cont fuel h]
        simp only [List.join_cons, List.map_append, List.mem_append]
        rintro (hmem | hmem)
        · rcases List.mem_map.1 hmem with ⟨r, hr, hru⟩
          exact stepItems_not_emitted_of_mem_seen hu hr hru
        · exact ih (stepItems_seen_mono hu) hmem

theorem runLoop_rows_nodup {cfg : WalkerCfg ρ} {cp : Option String}
    {pages : Nat → List RawItem} {stopAfter : Nat → Bool → Bool} :
    ∀ {fuel pn : Nat} {seen : List String} {latest : Option String},
      ((runLoop cfg cp pages stopAfter fuel pn seen latest).batches.join.map cfg.urlOf).Nodup := by
  intro fuel
  induction fuel with
  | zero => intro pn seen latest; simp [runLoop_zero]
  | succ fuel ih =>
      intro pn seen latest
      by_cases h : stopAfter pn (stepItems cfg cp pn (pages pn) seen latest).hit = true
      · rw [runLoop_succ_stop fuel h]
        simpa using stepItems_rows_nodup
      · rw [Bool.not_eq_true] at h
        rw [runLoop_succ_cont fuel h]
        simp only [List.join_cons, List.map_append]
        refine List.Nodup.append stepItems_rows_nodup ih ?_
        intro u hu1 hu2
        rcases List.mem_map.1 hu1 with ⟨r, hr, hru⟩
        have hseen : u ∈ (stepItems cfg cp pn (pages pn) seen latest).seen :=
          hru ▸ stepItems_rows_subset_seen hr
        exact runLoop_not_emitted_of_mem_seen hseen hu2

theorem runLoop_latest_some {cfg : WalkerCfg ρ} {cp : Option String}
    {pages : Nat → List RawItem} {stopAfter : Nat → Bool → Bool} :
    ∀ {fuel pn : Nat} {seen : List String} {x : String},
      (runLoop cfg cp pages stopAfter fuel pn seen (some x)).latest = some x := by
  intro fuel
  induction fuel with
  | zero => intro pn seen x; simp [runLoop_zero]
  | succ fuel ih =>
      intro pn seen x
      by_cases h : stopAfter pn (stepItems cfg cp pn (pages pn) seen (some x)).hit = true
      · rw [runLoop_succ_stop fuel h]
        exact stepItems_latest_some
      · rw [Bool.not_eq_true] at h
        rw [runLoop_succ_cont fuel h]
        show (runLoop cfg cp pages stopAfter fuel (pn + 1)
          (stepItems cfg cp pn (pages pn) seen (some x)).seen
          (stepItems cfg cp pn (pages pn) seen (some x)).latest).latest = some x
        rw [stepItems_latest_some]
        exact ih

theorem stepItems_append_nohit {cfg : WalkerCfg ρ} {cp : Option String} {pn : Nat} :
    ∀ {xs : List RawItem} (ys : List RawItem) {seen : List String}
      {latest : Option String},
      (stepItems cfg cp pn xs seen latest).hit = false →
      stepItems cfg cp pn (xs ++ ys) seen latest =
        ⟨(stepItems cfg cp pn xs seen latest).rows ++
           (stepItems cfg cp pn ys (stepItems cfg cp pn xs seen latest).seen
             (stepItems cfg cp pn xs seen latest).latest).rows,
         (stepItems cfg cp pn ys (stepItems cfg cp pn xs seen latest).seen
           (stepItems cfg cp pn xs seen latest).latest).seen,
         (stepItems cfg cp pn ys (stepItems cfg cp pn xs seen latest).seen
           (stepItems cfg cp pn xs seen latest).latest).latest,
         (stepItems cfg cp pn ys (stepItems cfg cp pn xs seen latest).seen
           (stepItems cfg cp pn xs seen latest).latest).hit⟩ := by
  intro xs
  induction xs with
  | nil =>
      intro ys seen latest _
      simp only [List.nil_append, stepItems_nil, List.nil_append]
  | cons it xs ih =>
      intro ys seen latest hfit
      by_cases h1 : cpHitB cp (itemUrl cfg it) = true
      · rw [stepItems_cons_hit xs h1] at hfit
        simp at hfit
      · rw [Bool.not_eq_true] at h1
        by_cases h2 : itemUrl cfg it ∈ seen
        · rw [stepItems_cons_seen xs h1 h2] at hfit ⊢
          rw [List.cons_append, stepItems_cons_seen (xs ++ ys) h1 h2]
          exact ih ys hfit
        · by_cases h3 : cfg.valid (pyStrip it.title) (pyStrip it.href)
              (pyStrip it.priceText) = true
          · rw [stepItems_cons_emit xs h1 h2 h3] at hfit ⊢
            rw [List.cons_append, stepItems_cons_emit (xs ++ ys) h1 h2 h3]
            simp only at hfit ⊢
            rw [ih ys hfit]
            rfl
          · rw [Bool.not_eq_true] at h3
            rw [stepItems_cons_drop xs h1 h2 h3] at hfit ⊢
            rw [List.cons_append, stepItems_cons_drop (xs ++ ys) h1 h2 h3]
            exact ih ys hfit

/-- If the first occurrence of a URL in the walk is an item that is dropped
for missing required fields, that URL is never emitted for the rest of the
run: the item was added to `seen` before the validation, so every later
occurrence is skipped. -/
theorem runLoop_dropped_url_never_emitted {cfg : WalkerCfg ρ} {cp : Option String}
    {pages : Nat → List RawItem} {stopAfter : Nat → Bool → Bool}
    {fuel pn : Nat} {seen : List String} {latest : Option String}
    {pre : List RawItem} {it : RawItem} {post : List RawItem}
    (hpage : pages pn = pre ++ it :: post)
    (hprehit : (stepItems cfg cp pn pre seen latest).hit = false)
    (hnotcp : cpHitB cp (itemUrl cfg it) = false)
    (hnew : itemUrl cfg it ∉ (stepItems cfg cp pn pre seen latest).seen)
    (hinvalid : cfg.valid (pyStrip it.title) (pyStrip it.href)
      (pyStrip it.priceText) = false) :
    itemUrl cfg it ∉
      ((runLoop cfg cp pages stopAfter fuel pn seen latest).batches.join.map cfg.urlOf) := by
  cases fuel with
  | zero => simp [runLoop_zero]
  | succ fuel =>
      set u := itemUrl cfg it with hu
      set s0 := (stepItems cfg cp pn pre seen latest).seen with hs0
      set l0 := (stepItems cfg cp pn pre seen latest).latest with hl0
      have hdecomp : stepItems cfg cp pn (pages pn) seen latest =
          ⟨(stepItems cfg cp pn pre seen latest).rows ++
             (stepItems cfg cp pn (it :: post) s0 l0).rows,
           (stepItems cfg cp pn (it :: post) s0 l0).seen,
           (stepItems cfg cp pn (it :: post) s0 l0).latest,
           (stepItems cfg cp pn (it :: post) s0 l0).hit⟩ := by
        rw [hpage]; exact stepItems_append_nohit _ hprehit
      have hitstep : stepItems cfg cp pn (it :: post) s0 l0 =
          stepItems cfg cp pn post (u :: s0) (latestUpd pn l0 u) :=
        stepItems_cons_drop post hnotcp hnew hinvalid
      have hunotpre : ∀ r ∈ (stepItems cfg cp pn pre seen latest).rows,
          cfg.urlOf r ≠ u := by
        intro r hr hEq
        exact hnew (hEq ▸ stepItems_rows_subset_seen hr)
      have humem : u ∈ (stepItems cfg cp pn (it :: post) s0 l0).seen := by
        rw [hitstep]
        exact stepItems_seen_mono (List.mem_cons_self _ _)
      have hunottail : ∀ r ∈ (stepItems cfg cp pn (it :: post) s0 l0).rows,
          cfg.urlOf r ≠ u := by
        rw [hitstep]
        intro r hr
        exact stepItems_not_emitted_of_mem_seen (List.mem_cons_self _ _) hr
      have hrownotu : ∀ r ∈ (stepItems cfg cp pn (pages pn) seen latest).rows,
          cfg.urlOf r ≠ u := by
        rw [hdecomp]
        intro r hr
        rcases List.mem_append.1 hr with hr | hr
        · exact hunotpre r hr
        · exact hunottail r hr
      have hseenu : u ∈ (stepItems cfg cp pn (pages pn) seen latest).seen := by
        rw [hdecomp]; exact humem
      by_cases h : stopAfter pn (stepItems cfg cp pn (pages pn) seen latest).hit = true
      · rw [runLoop_succ_stop fuel h]
        simp only [List.join_cons, List.join_nil, List.append_nil, List.mem_map]
        rintro ⟨r, hr, hru⟩
        exact hrownotu r hr hru
      · rw [Bool.not_eq_true] at h
        rw [runLoop_succ_cont fuel h]
        simp only [List.join_cons, List.map_append, List.mem_append]
        rintro (hmem | hmem)
        · rcases List.mem_map.1 hmem with ⟨r, hr, hru⟩
          exact hrownotu r hr hru
        · exact runLoop_not_emitted_of_mem_seen hseenu hmem

/-! ## The fallible page loop -/

theorem runLoopE_zero (cfg : WalkerCfg ρ) (cp : Option String)
    (fetch : Nat → Except Unit (List RawItem)) (stopAfter : Nat → Bool → Bool)
    (pn : Nat) (seen : List String) (latest : Option String) :
    runLoopE cfg cp fetch stopAfter 0 pn seen latest = ([], .ok latest) := rfl

theorem runLoopE_err {cfg : WalkerCfg ρ} {cp : Option String}
    {fetch : Nat → Except Unit (List RawItem)} {stopAfter : Nat → Bool → Bool}
    (fuel : Nat) {pn : Nat} (seen : List String) (latest : Option String)
    {e : Unit} (h : fetch pn = .error e) :
    runLoopE cfg cp fetch stopAfter (fuel + 1) pn seen latest = ([], .error e) := by
  simp [runLoopE, h]

theorem runLoopE_ok_stop {cfg : WalkerCfg ρ} {cp : Option String}
    {fetch : Nat → Except Unit (List RawItem)} {stopAfter : Nat → Bool → Bool}
    (fuel : Nat) {pn : Nat} {seen : List String} {latest : Option String}
    {items : List RawItem} (hf : fetch pn = .ok items)
    (h : stopAfter pn (stepItems cfg cp pn items seen latest).hit = true) :
    runLoopE cfg cp fetch stopAfter (fuel + 1) pn seen latest =
      ([(stepItems cfg cp pn items seen latest).rows],
       .ok (stepItems cfg cp pn items seen latest).latest) := by
  simp [runLoopE, hf, h]

theorem runLoopE_ok_cont {cfg : WalkerCfg ρ} {cp : Option String}
    {fetch : Nat → Except Unit (List RawItem)} {stopAfter : Nat → Bool → Bool}
    (fuel : Nat) {pn : Nat} {seen : List String} {latest : Option String}
    {items : List RawItem} (hf : fetch pn = .ok items)
    (h : stopAfter pn (stepItems cfg cp pn items seen latest).hit = false) :
    runLoopE cfg cp fetch stopAfter (fuel + 1) pn seen latest =
      ((stepItems cfg cp pn items seen latest).rows ::
         (runLoopE cfg cp fetch stopAfter fuel (pn + 1)
           (stepItems cfg cp pn items seen latest).seen
           (stepItems cfg cp pn items seen latest).latest).1,
       (runLoopE cfg cp fetch stopAfter fuel (pn + 1)
         (stepItems cfg cp pn items seen latest).seen
         (stepItems cfg cp pn items seen latest).latest).2) := by
  simp [runLoopE, hf, h]

/-- A run that fails while fetching page `K` has already written (and
flushed) exactly the batches of the pages before `K`, which are the batches
of the failure-free loop run with fuel `K - pn`. -/
theorem runLoopE_error_batches {cfg : WalkerCfg ρ} {cp : Option String}
    {pages : Nat → List RawItem} {fetch : Nat → Except Unit (List RawItem)}
    {stopAfter : Nat → Bool → Bool} {K : Nat} :
    ∀ {fuel pn : Nat} {seen : List String} {latest : Option String},
      pn ≤ K →
      (∀ j, pn ≤ j → j < K → fetch j = .ok (pages j)) →
      fetch K = .error () →
      (runLoopE cfg cp fetch stopAfter fuel pn seen latest).2 = .error () →
      (runLoopE cfg cp fetch stopAfter fuel pn seen latest).1 =
        (runLoop cfg cp pages stopAfter (K - pn) pn seen latest).batches := by
  intro fuel
  induction fuel with
  | zero =>
      intro pn seen latest _ _ _ herr
      simp [runLoopE_zero] at herr
  | succ fuel ih =>
      intro pn seen latest hpnK hok hKerr herr
      by_cases hpn : pn = K
      · subst hpn
        rw [runLoopE_err fuel seen latest hKerr]
        simp [runLoop_zero]
      · have hlt : pn < K := lt_of_le_of_ne hpnK hpn
        have hf : fetch pn = .ok (pages pn) := hok pn le_rfl hlt
        by_cases h : stopAfter pn (stepItems cfg cp pn (pages pn) seen latest).hit = true
        · rw [runLoopE_ok_stop fuel hf h] at herr
          simp at herr
        · rw [Bool.not_eq_true] at h
          rw [runLoopE_ok_cont fuel hf h] at herr ⊢
          have hsub : K - pn = (K - (pn + 1)) + 1 := by omega
          rw [hsub, runLoop_succ_cont (K - (pn + 1)) h]
          simp only at herr ⊢
          rw [ih (by omega) (fun j hj1 hj2 => hok j (by omega) hj2) hKerr herr]

/-! ## Retry-budget and sink lemmas for the detail fetcher -/

theorem scrapeAttempts_congr {δ : Type} {script script' : Nat → AttemptOutcome δ}
    {url : String} {maxRetries : Nat} :
    ∀ {fuel attempt : Nat}, attempt ≤ maxRetries →
      (∀ a, a ≤ maxRetries → script a = script' a) →
      scrapeAttempts script url maxRetries fuel attempt =
        scrapeAttempts script' url maxRetries fuel attempt := by
  intro fuel
  induction fuel with
  | zero => intro attempt _ _; rfl
  | succ fuel ih =>
      intro attempt hle hagree
      simp only [scrapeAttempts, hagree attempt hle]
      cases script' attempt with
      | transient =>
          by_cases hlt : attempt < maxRetries
          · simp only [hlt, if_true]
            exact ih (by omega) hagree
          · simp [hlt]
      | httpErr c => rfl
      | okRec d => rfl
      | exc m => rfl

/-- `scrape_one_url` never consults attempts beyond the retry budget: its
result only depends on the attempt outcomes `0 … MAX_RETRIES`. -/
theorem scrape_one_url_budget {δ : Type} {script script' : Nat → AttemptOutcome δ}
    {url : String} {maxRetries : Nat}
    (h : ∀ a, a ≤ maxRetries → script a = script' a) :
    scrape_one_url script url maxRetries = scrape_one_url script' url maxRetries :=
  scrapeAttempts_congr (Nat.zero_le _) h

theorem worker_sink_cons {δ : Type} (r : FetchResult δ) (rest : List (FetchResult δ)) :
    worker_sink (r :: rest) =
      (match r with
       | .success d => d :: worker_sink rest
       | _ => worker_sink rest) := by
  cases r <;> rfl

theorem worker_err_count_cons {δ : Type} (r : FetchResult δ)
    (rest : List (FetchResult δ)) :
    worker_err_count (r :: rest) =
      worker_err_count rest + (if isErrRec r then 1 else 0) := by
  simp [worker_err_count, List.countP_cons]

theorem worker_sink_length {δ : Type} :
    ∀ results : List (FetchResult δ),
      (worker_sink results).length + worker_err_count results = results.length := by
  intro results
  induction results with
  | nil => rfl
  | cons r rest ih =>
      rw [worker_sink_cons, worker_err_count_cons, List.length_cons]
      cases r <;> simp [isErrRec] <;> omega

theorem worker_ok_count_eq_sink_length {δ : Type} :
    ∀ results : List (FetchResult δ),
      worker_ok_count results = (worker_sink results).length := by
  intro results
  induction results with
  | nil => rfl
  | cons r rest ih =>
      have hcnt : worker_ok_count (r :: rest) =
          worker_ok_count rest + (if isErrRec r then 0 else 1) := by
        simp only [worker_ok_count, List.countP_cons]
        cases r <;> simp [isErrRec]
      rw [hcnt, worker_sink_cons]
      cases r <;> simp [isErrRec] <;> omega

theorem scrapeAttempts_transient {δ : Type} {url : String} {maxRetries : Nat} :
    ∀ fuel attempt,
      scrapeAttempts (δ := δ) (fun _ => .transient) url maxRetries fuel attempt =
        .errParse url := by
  intro fuel
  induction fuel with
  | zero => intro attempt; rfl
  | succ fuel ih =>
      intro attempt
      simp only [scrapeAttempts]
      split
      · exact ih (attempt + 1)
      · rfl

/-! ## Checkpoint-hit helper lemmas -/

theorem cpHitB_some_ne {c u : String} (hc : c ≠ "") (h : u ≠ c) :
    cpHitB (some c) u = false := by
  simp [cpHitB, hc, h]

theorem cpHitB_some_eq {c : String} (hc : c ≠ "") : cpHitB (some c) c = true := by
  simp [cpHitB, hc]

/-- The first item of page 1 always fixes the candidate checkpoint (the
assignment runs before the checkpoint, dedup and validation checks). -/
theorem stepItems_latest_first {cfg : WalkerCfg ρ} {cp : Option String}
    {it : RawItem} (rest : List RawItem) (seen : List String)
    (hu : itemUrl cfg it ≠ "") :
    (stepItems cfg cp 1 (it :: rest) seen none).latest = some (itemUrl cfg it) := by
  have hupd : latestUpd 1 none (itemUrl cfg it) = some (itemUrl cfg it) := by
    simp [latestUpd, hu]
  by_cases h1 : cpHitB cp (itemUrl cfg it) = true
  · rw [stepItems_cons_hit rest h1, hupd]
  · rw [Bool.not_eq_true] at h1
    by_cases h2 : itemUrl cfg it ∈ seen
    · rw [stepItems_cons_seen rest h1 h2, hupd]
      exact stepItems_latest_some
    · by_cases h3 : cfg.valid (pyStrip it.title) (pyStrip it.href)
          (pyStrip it.priceText) = true
      · rw [stepItems_cons_emit rest h1 h2 h3, hupd]
        exact stepItems_latest_some
      · rw [Bool.not_eq_true] at h3
        rw [stepItems_cons_drop rest h1 h2 h3, hupd]
        exact stepItems_latest_some

/-- A run starting on page 1 returns the URL of the first item of page 1 as
its candidate checkpoint whenever that item has a non-empty URL. -/
theorem runLoop_latest_first {cfg : WalkerCfg ρ} {cp : Option String}
    {pages : Nat → List RawItem} {stopAfter : Nat → Bool → Bool}
    {fuel : Nat} {seen : List String} {it : RawItem} {rest : List RawItem}
    (hpage : pages 1 = it :: rest) (hu : itemUrl cfg it ≠ "") :
    (runLoop cfg cp pages stopAfter (fuel + 1) 1 seen none).latest =
      some (itemUrl cfg it) := by
  have hlat : (stepItems cfg cp 1 (pages 1) seen none).latest = some (itemUrl cfg it) := by
    rw [hpage]; exact stepItems_latest_first rest seen hu
  by_cases h : stopAfter 1 (stepItems cfg cp 1 (pages 1) seen none).hit = true
  · rw [runLoop_succ_stop fuel h]
    exact hlat
  · rw [Bool.not_eq_true] at h
    rw [runLoop_succ_cont fuel h]
    show (runLoop cfg cp pages stopAfter fuel 2
      (stepItems cfg cp 1 (pages 1) seen none).seen
      (stepItems cfg cp 1 (pages 1) seen none).latest).latest = some (itemUrl cfg it)
    rw [hlat]
    exact runLoop_latest_some

/-- Checkpoint semantics of the shared walker loop: with the checkpoint
equal to the third item of page 1, the run emits exactly the first two
items (assumed new and valid) as one batch and stops on the hit without
visiting further pages. -/
theorem runLoop_checkpoint_third {cfg : WalkerCfg ρ} {pages : Nat → List RawItem}
    {stopAfter : Nat → Bool → Bool} {fuel : Nat} {existing : List String}
    {a b c : RawItem} {rest : List RawItem}
    (hpage : pages 1 = a :: b :: c :: rest)
    (hstop : stopAfter 1 true = true)
    (hcu : itemUrl cfg c ≠ "")
    (hac : itemUrl cfg a ≠ itemUrl cfg c)
    (hbc : itemUrl cfg b ≠ itemUrl cfg c)
    (hba : itemUrl cfg b ≠ itemUrl cfg a)
    (hae : itemUrl cfg a ∉ existing)
    (hbe : itemUrl cfg b ∉ existing)
    (hav : cfg.valid (pyStrip a.title) (pyStrip a.href) (pyStrip a.priceText) = true)
    (hbv : cfg.valid (pyStrip b.title) (pyStrip b.href) (pyStrip b.priceText) = true) :
    (runLoop cfg (some (itemUrl cfg c)) pages stopAfter (fuel + 1) 1 existing
        none).batches =
      [[cfg.row (pyStrip a.title) (itemUrl cfg a) (pyStrip a.priceText)
          (pyStrip a.releaseDateText),
        cfg.row (pyStrip b.title) (itemUrl cfg b) (pyStrip b.priceText)
          (pyStrip b.releaseDateText)]] ∧
      (stepItems cfg (some (itemUrl cfg c)) 1 (pages 1) existing none).hit = true := by
  have hbe' : itemUrl cfg b ∉ itemUrl cfg a :: existing := by
    intro hmem
    rcases List.mem_cons.1 hmem with h | h
    · exact hba h
    · exact hbe h
  have hstep : stepItems cfg (some (itemUrl cfg c)) 1 (pages 1) existing none =
      ⟨[cfg.row (pyStrip a.title) (itemUrl cfg a) (pyStrip a.priceText)
          (pyStrip a.releaseDateText),
        cfg.row (pyStrip b.title) (itemUrl cfg b) (pyStrip b.priceText)
          (pyStrip b.releaseDateText)],
        itemUrl cfg b :: itemUrl cfg a :: existing,
        latestUpd 1 (latestUpd 1 (latestUpd 1 none (itemUrl cfg a)) (itemUrl cfg b))
          (itemUrl cfg c),
        true⟩ := by
    rw [hpage]
    rw [stepItems_cons_emit _ (cpHitB_some_ne hcu hac) hae hav]
    rw [stepItems_cons_emit _ (cpHitB_some_ne hcu hbc) hbe' hbv]
    rw [stepItems_cons_hit rest (cpHitB_some_eq hcu)]
  have hhit : (stepItems cfg (some (itemUrl cfg c)) 1 (pages 1) existing none).hit = true := by
    rw [hstep]
  refine ⟨?_, hhit⟩
  have hs : stopAfter 1 (stepItems cfg (some (itemUrl cfg c)) 1 (pages 1) existing
      none).hit = true := by rw [hhit]; exact hstop
  rw [runLoop_succ_stop fuel hs, hstep]

/-- An HLJ item URL built from a non-empty stripped href is non-empty. -/
theorem hlj_itemUrl_ne_empty {it : RawItem} (h : pyStrip it.href ≠ "") :
    itemUrl hljCfg it ≠ "" := by
  unfold itemUrl
  rw [if_neg h]
  show "https://www.hlj.com" ++ pyStrip it.href ≠ ""
  intro hcontra
  have hlen := congrArg String.length hcontra
  rw [String.length_append] at hlen
  have h19 : "https://www.hlj.com".length = 19 := rfl
  have h0 : "".length = 0 := rfl
  omega

/-! ## Claim theorems -/

/-- Claim C6, counterexample.  The claim attributes both date grammars and
the `"13月" → none` behaviour to a single `parseLocalizedDate`; neither
date parser in the code behaves that way: `parse_release_date`
(`scrape_bandai_hobby.py`) passes `"13月"` and `"2025/03/15"` through
unmodified instead of returning none / an ISO date, and `parse_rfc3339`
(`scrape_hlj_details.py`) returns none for the `年月` grammar. -/
theorem c6_date_counterexample :
    parse_release_date "13月" = some "13月" ∧
    parse_release_date "2025/03/15" = some "2025/03/15" ∧
    parse_rfc3339 "2025年3月" = none ∧
    parse_rfc3339 "13月" = none := by
  refine ⟨by decide, by decide, by decide, by decide⟩

/-- Claim C6 (corrected): date parsing is split between two functions.
`parse_release_date` supports `YYYY年MM月[DD日]` (day defaulting to 1),
validates month ∈ [1,12] and day ∈ [1,31], and passes any other non-empty
input — including `"13月"`, `"2025/03/15"` and invalid-month or
invalid-day matches — through unmodified, returning none only for empty
input; `parse_rfc3339` supports only `YYYY/MM/DD` (with calendar
validation) and returns none for everything else, including empty input.
`parse_release_date("2025年3月") = "2025-03-01T00:00:00Z"` and
`parse_rfc3339("2025/03/15") = "2025-03-15T00:00:00Z"`. -/
theorem c6_date_parsers :
    parse_release_date "2025年3月" = some "2025-03-01T00:00:00Z" ∧
    parse_release_date "2025年3月15日" = some "2025-03-15T00:00:00Z" ∧
    parse_release_date "2025年13月" = some "2025年13月" ∧
    parse_release_date "2025年3月32日" = some "2025年3月32日" ∧
    parse_release_date "" = none ∧
    parse_rfc3339 "2025/03/15" = some "2025-03-15T00:00:00Z" ∧
    parse_rfc3339 "2025/13/05" = none ∧
    parse_rfc3339 "2025/02/30" = none ∧
    parse_rfc3339 "2024/02/29" = some "2024-02-29T00:00:00Z" ∧
    parse_rfc3339 "" = none := by
  refine ⟨by decide, by decide, by decide, by decide, by decide, by decide, by decide,
    by decide, by decide, by decide⟩

/-- Claim C7, counterexample.  Two normalization paths raise.  The
size/weight parsing (and the other details-section field parsing) of
`extract_hlj_details_section` is not total: an item text that passes the
`startswith` guard but not the full pattern makes `search` return `None`,
and the unconditional `.group(...)` call raises `AttributeError`.  And
`to_pre_tax_yen` has no `try/except`, so `quantize` raises
`InvalidOperation` under the default 28-digit context whenever the rounded
pre-tax amount needs 29 or more digits — reachable from `parse_price` on a
28-digit price token (`1.1e28 / 1.10 = 1e28`, a 29-digit coefficient). -/
theorem to_pre_tax_yen_x_some (x : ℚ) :
    to_pre_tax_yen_x (some x) =
      if (roundHalfUp (x / TAX_MULTIPLIER)).natAbs < 10 ^ DECIMAL_PREC then
        .ok (some (roundHalfUp (x / TAX_MULTIPLIER)))
      else .error .invalidOperation := rfl

theorem c7_totality_counterexample :
    extract_hlj_details_items ["Item Size/Weight: unknown"] =
      .error .attributeError ∧
    extract_hlj_details_items ["Release Date: TBD"] = .error .attributeError ∧
    to_pre_tax_yen_x (parse_price_bandai "11000000000000000000000000000円") =
      .error .invalidOperation := by
  refine ⟨by decide, by decide, ?_⟩
  have hp : parse_price_bandai "11000000000000000000000000000円" =
      some ((1 : ℚ) * ((11000000000000000000000000000 : ℕ) : ℚ) *
        (10 : ℚ) ^ (0 : ℤ)) := rfl
  have hval : (1 : ℚ) * ((11000000000000000000000000000 : ℕ) : ℚ) *
      (10 : ℚ) ^ (0 : ℤ) / TAX_MULTIPLIER = 10 ^ 28 := by
    norm_num [TAX_MULTIPLIER]
  have hfloor : ⌊(10 : ℚ) ^ 28 + 1 / 2⌋ = 10 ^ 28 := by
    rw [Int.floor_eq_iff]
    constructor <;> norm_num
  have hround : roundHalfUp ((10 : ℚ) ^ 28) = 10 ^ 28 := by
    rw [roundHalfUp, if_pos (by positivity), hfloor]
  rw [hp, to_pre_tax_yen_x_some, hval, hround]
  rw [if_neg]
  rw [Int.natAbs_pow]
  norm_num [DECIMAL_PREC]

/-- Claim C7 (corrected): the standalone text-normalization functions —
both `parse_price` functions and `parse_rfc3339` (and the
regex-substitution helpers, which contain no raising operation) — are
total: every operation in their bodies that can raise sits inside a
`try/except`, so they return normally on every input.  Two paths are not
total.  `to_pre_tax_yen` returns normally only while the rounded pre-tax
amount stays under the default decimal context's 28-digit precision
(which every realistic price does); past that bound `quantize` raises
uncaught `InvalidOperation`.  And the details-section field parsing
inlined in `extract_hlj_details_section` raises `AttributeError` on a
guard-matching but pattern-failing item such as
`"Item Size/Weight: unknown"`. -/
theorem c7_normalization_total :
    (∀ s : String, (parse_price_hlj_x s).isOk = true) ∧
    (∀ s : String, (parse_price_bandai_x s).isOk = true) ∧
    (∀ s : String, (parse_rfc3339_x s).isOk = true) ∧
    (to_pre_tax_yen_x none).isOk = true ∧
    (∀ x : ℚ, (roundHalfUp (x / TAX_MULTIPLIER)).natAbs < 10 ^ DECIMAL_PREC →
      to_pre_tax_yen_x (some x) = .ok (some (roundHalfUp (x / TAX_MULTIPLIER)))) ∧
    (∀ x : ℚ, ¬(roundHalfUp (x / TAX_MULTIPLIER)).natAbs < 10 ^ DECIMAL_PREC →
      to_pre_tax_yen_x (some x) = .error .invalidOperation) ∧
    (extract_hlj_details_items ["Item Size/Weight: unknown"]).isOk = false := by
  refine ⟨?_, ?_, ?_, rfl, ?_, ?_, by decide⟩
  · intro s
    unfold parse_price_hlj_x
    cases pyFloat ⟨yenSub s.toList⟩ <;> rfl
  · intro s; rfl
  · intro s
    unfold parse_rfc3339_x
    by_cases hs : s = ""
    · rw [if_pos hs]; rfl
    · rw [if_neg hs]
      rcases h : strptimeYmd s with _ | ⟨y, m, d⟩ <;> rfl
  · intro x hx
    rw [to_pre_tax_yen_x_some, if_pos hx]
  · intro x hx
    rw [to_pre_tax_yen_x_some, if_neg hx]

/-- Witness for C7's bounded totality of `to_pre_tax_yen` at the ordinary
price 11000 (pre-tax 10000, well under the 28-digit precision). -/
theorem c7_normalization_total_witness :
    (roundHalfUp ((11000 : ℚ) / TAX_MULTIPLIER)).natAbs < 10 ^ DECIMAL_PREC ∧
    to_pre_tax_yen_x (some 11000) =
      .ok (some (roundHalfUp ((11000 : ℚ) / TAX_MULTIPLIER))) := by
  have hb : (roundHalfUp ((11000 : ℚ) / TAX_MULTIPLIER)).natAbs <
      10 ^ DECIMAL_PREC := by
    have h1 : (11000 : ℚ) / TAX_MULTIPLIER = 10000 := by norm_num [TAX_MULTIPLIER]
    have h2 : roundHalfUp ((11000 : ℚ) / TAX_MULTIPLIER) = 10000 := by
      rw [h1, roundHalfUp, if_pos (by norm_num)]
      rw [Int.floor_eq_iff]
      constructor <;> norm_num
    rw [h2]
    norm_num [DECIMAL_PREC]
  exact ⟨hb, c7_normalization_total.2.2.2.2.1 11000 hb⟩

/-- Claim C8: `parse_price` of `scrape_bandai_hobby.py` converts full-width
digits to ASCII, strips the currency marker and grouping separators,
prefers tokens adjacent to an explicit currency marker (`円`/`yen`) over
other numeric tokens, falls back to the largest numeric token when no
tagged token exists, and returns none when no numeric token exists:
`parse_price("¥3,960") = 3960`, `parse_price("１２０円") = 120`,
`parse_price("") = none`; `"120円 150pt"` prefers the tagged `120` over
the larger untagged `150`, and `"10% ¥3,960"` falls back to the largest
token `3960`. -/
theorem c8_parse_price :
    parse_price_bandai "¥3,960" = some 3960 ∧
    parse_price_bandai "１２０円" = some 120 ∧
    parse_price_bandai "" = none ∧
    parse_price_bandai "120円 150pt" = some 120 ∧
    parse_price_bandai "120円 109円" = some 120 ∧
    parse_price_bandai "10% ¥3,960" = some 3960 ∧
    parse_price_bandai "この商品" = none := by
  refine ⟨?_, ?_, by decide, ?_, ?_, ?_, by decide⟩
  · have h : parse_price_bandai "¥3,960" =
        some ((1 : ℚ) * ((3960 : ℕ) : ℚ) * (10 : ℚ) ^ (0 : ℤ)) := rfl
    rw [h]; norm_num
  · have h : parse_price_bandai "１２０円" =
        some ((1 : ℚ) * ((120 : ℕ) : ℚ) * (10 : ℚ) ^ (0 : ℤ)) := rfl
    rw [h]; norm_num
  · have h : parse_price_bandai "120円 150pt" =
        some ((1 : ℚ) * ((120 : ℕ) : ℚ) * (10 : ℚ) ^ (0 : ℤ)) := rfl
    rw [h]; norm_num
  · have h : parse_price_bandai "120円 109円" =
        some (List.foldl max ((1 : ℚ) * ((120 : ℕ) : ℚ) * (10 : ℚ) ^ (0 : ℤ))
          [(1 : ℚ) * ((109 : ℕ) : ℚ) * (10 : ℚ) ^ (0 : ℤ)]) := rfl
    rw [h]
    simp only [List.foldl]
    norm_num
  · have h : parse_price_bandai "10% ¥3,960" =
        some (List.foldl max ((1 : ℚ) * ((10 : ℕ) : ℚ) * (10 : ℚ) ^ (0 : ℤ))
          [(1 : ℚ) * ((3960 : ℕ) : ℚ) * (10 : ℚ) ^ (0 : ℤ)]) := rfl
    rw [h]
    simp only [List.foldl]
    norm_num

/-- Claim C9: `to_pre_tax_yen` divides a tax-inclusive amount by the fixed
multiplier `1.10` and rounds to the nearest whole unit with round-half-up
(ties away from zero, so at most half a unit up and strictly less than
half a unit down), returning none for a none input:
`to_pre_tax_yen(11000) = 10000` and `to_pre_tax_yen(1101) = 1001`. -/
theorem c9_to_pre_tax_yen :
    to_pre_tax_yen (some 11000) = some 10000 ∧
    to_pre_tax_yen (some 1101) = some 1001 ∧
    to_pre_tax_yen none = none ∧
    (∀ x : ℚ, to_pre_tax_yen (some x) = some (roundHalfUp (x / TAX_MULTIPLIER))) ∧
    (∀ q : ℚ, 0 ≤ q →
      ((roundHalfUp q : ℚ) - q ≤ 1 / 2 ∧ q - (roundHalfUp q : ℚ) < 1 / 2)) := by
  refine ⟨?_, ?_, rfl, fun x => rfl, ?_⟩
  · simp only [to_pre_tax_yen, roundHalfUp, TAX_MULTIPLIER]
    norm_num
  · simp only [to_pre_tax_yen, roundHalfUp, TAX_MULTIPLIER]
    norm_num
  · intro q hq
    rw [roundHalfUp, if_pos hq]
    have h1 : (⌊q + 1 / 2⌋ : ℚ) ≤ q + 1 / 2 := Int.floor_le _
    have h2 : q + 1 / 2 < (⌊q + 1 / 2⌋ : ℚ) + 1 := Int.lt_floor_add_one _
    constructor <;> linarith

/-- Witness for C9's round-half-up bounds at the tie `q = 5/2` (rounded up
to 3). -/
theorem c9_to_pre_tax_yen_witness :
    (0 : ℚ) ≤ 5 / 2 ∧
      ((roundHalfUp (5 / 2) : ℚ) - 5 / 2 ≤ 1 / 2 ∧
        5 / 2 - (roundHalfUp (5 / 2) : ℚ) < 1 / 2) :=
  ⟨by norm_num, c9_to_pre_tax_yen.2.2.2.2 (5 / 2) (by norm_num)⟩

/-- Claim C2: in both walkers, a run whose checkpoint equals the third item
of page 1 (with items #1 and #2 new, distinct and carrying all required
fields) marks a checkpoint-hit on item #3, emits exactly items #1 and #2
as one written batch, and never advances past page 1 — the entire output
is that single batch, whatever the later pages contain. -/
theorem c2_checkpoint_stops_early :
    (∀ (site : HljSite) (existing : List String) (a b c : RawItem)
        (rest : List RawItem),
      1 ≤ site.maxPages →
      site.pages 1 = a :: b :: c :: rest →
      itemUrl hljCfg c ≠ "" →
      itemUrl hljCfg a ≠ itemUrl hljCfg c →
      itemUrl hljCfg b ≠ itemUrl hljCfg c →
      itemUrl hljCfg b ≠ itemUrl hljCfg a →
      itemUrl hljCfg a ∉ existing →
      itemUrl hljCfg b ∉ existing →
      hljCfg.valid (pyStrip a.title) (pyStrip a.href) (pyStrip a.priceText) = true →
      hljCfg.valid (pyStrip b.title) (pyStrip b.href) (pyStrip b.priceText) = true →
      (scrape_hlj_search_page site existing (some (itemUrl hljCfg c))).batches =
          [[hljCfg.row (pyStrip a.title) (itemUrl hljCfg a) (pyStrip a.priceText)
              (pyStrip a.releaseDateText),
            hljCfg.row (pyStrip b.title) (itemUrl hljCfg b) (pyStrip b.priceText)
              (pyStrip b.releaseDateText)]] ∧
        (stepItems hljCfg (some (itemUrl hljCfg c)) 1 (site.pages 1) existing
            none).hit = true) ∧
    (∀ (join : String → String) (site : BandaiSite) (existing : List String)
        (a b c : RawItem) (rest : List RawItem),
      1 ≤ site.maxPages →
      site.pages 1 = a :: b :: c :: rest →
      itemUrl (bandaiCfg join) c ≠ "" →
      itemUrl (bandaiCfg join) a ≠ itemUrl (bandaiCfg join) c →
      itemUrl (bandaiCfg join) b ≠ itemUrl (bandaiCfg join) c →
      itemUrl (bandaiCfg join) b ≠ itemUrl (bandaiCfg join) a →
      itemUrl (bandaiCfg join) a ∉ existing →
      itemUrl (bandaiCfg join) b ∉ existing →
      (bandaiCfg join).valid (pyStrip a.title) (pyStrip a.href)
        (pyStrip a.priceText) = true →
      (bandaiCfg join).valid (pyStrip b.title) (pyStrip b.href)
        (pyStrip b.priceText) = true →
      (scrape_bandai_search_page join site existing
          (some (itemUrl (bandaiCfg join) c))).batches =
          [[(bandaiCfg join).row (pyStrip a.title) (itemUrl (bandaiCfg join) a)
              (pyStrip a.priceText) (pyStrip a.releaseDateText),
            (bandaiCfg join).row (pyStrip b.title) (itemUrl (bandaiCfg join) b)
              (pyStrip b.priceText) (pyStrip b.releaseDateText)]] ∧
        (stepItems (bandaiCfg join) (some (itemUrl (bandaiCfg join) c)) 1
            (site.pages 1) existing none).hit = true) := by
  constructor
  · intro site existing a b c rest hmax hpage hcu hac hbc hba hae hbe hav hbv
    obtain ⟨k, hk⟩ : ∃ k, site.maxPages = k + 1 := ⟨site.maxPages - 1, by omega⟩
    unfold scrape_hlj_search_page hljSearchLoop
    rw [hk]
    exact runLoop_checkpoint_third hpage (by simp [hljStop]) hcu hac hbc hba hae hbe
      hav hbv
  · intro join site existing a b c rest hmax hpage hcu hac hbc hba hae hbe hav hbv
    obtain ⟨k, hk⟩ : ∃ k, site.maxPages = k + 1 := ⟨site.maxPages - 1, by omega⟩
    unfold scrape_bandai_search_page bandaiSearchLoop
    rw [hk]
    exact runLoop_checkpoint_third hpage (by simp [bandaiStop]) hcu hac hbc hba hae hbe
      hav hbv

/-- Item `n` of the concrete 10-item listing used by the C2 witness. -/
def c2item (n : Nat) : RawItem :=
  ⟨"Kit " ++ toString n, "/product/" ++ toString n, "¥1,000", ""⟩

/-- The 10-item page-1 listing used by the concrete C2 witness. -/
def c2site : HljSite where
  pages pn := if pn = 1 then (List.range 10).map fun i => c2item (i + 1) else []
  maxPages := 4
  nextVisible _ := true

/-- Witness for C2: on a concrete 10-item newest-first page 1 with the
checkpoint at item #3, the run writes exactly items #1 and #2 as one batch
and marks the checkpoint-hit. -/
theorem c2_checkpoint_stops_early_witness :
    (scrape_hlj_search_page c2site []
        (some (itemUrl hljCfg (c2item 3)))).batches =
        [[hljCfg.row "Kit 1" (itemUrl hljCfg (c2item 1)) "¥1,000" "",
          hljCfg.row "Kit 2" (itemUrl hljCfg (c2item 2)) "¥1,000" ""]] ∧
      (stepItems hljCfg (some (itemUrl hljCfg (c2item 3))) 1 (c2site.pages 1) []
          none).hit = true := by
  have h := c2_checkpoint_stops_early.1 c2site [] (c2item 1) (c2item 2) (c2item 3)
    ((List.range 7).map fun i => c2item (i + 4))
    (by decide) (by decide) (by decide) (by decide) (by decide) (by decide)
    (by decide) (by decide) (by decide) (by decide)
  exact h

/-- Claim C3: an hlj walker run seeded with the URLs already persisted in
the sink never re-emits a seeded URL, emits any URL at most once within
the run even if it occurs on several pages or twice on one page, and — the
cross-run consequence — a resumed run seeded with the previous sink
contents (previous seed plus the previous run's emissions) re-emits none
of the previous run's URLs. -/
theorem c3_dedup_ledger (site : HljSite) (existing : List String)
    (cp : Option String) :
    (∀ u ∈ existing,
      u ∉ ((scrape_hlj_search_page site existing cp).batches.join.map hljCfg.urlOf)) ∧
    ((scrape_hlj_search_page site existing cp).batches.join.map hljCfg.urlOf).Nodup ∧
    (∀ (site' : HljSite) (cp' : Option String) (u : String),
      u ∈ ((scrape_hlj_search_page site existing cp).batches.join.map hljCfg.urlOf) →
      u ∉ ((scrape_hlj_search_page site'
        (existing ++
          ((scrape_hlj_search_page site existing cp).batches.join.map hljCfg.urlOf))
        cp').batches.join.map hljCfg.urlOf)) := by
  refine ⟨?_, runLoop_rows_nodup, ?_⟩
  · intro u hu
    exact runLoop_not_emitted_of_mem_seen hu
  · intro site' cp' u hu
    exact runLoop_not_emitted_of_mem_seen (List.mem_append.2 (Or.inr hu))

/-- The two-page listing used by the concrete C3 witness: the seeded URL
`/product/1` reappears on page 1, `/product/2` appears on both pages. -/
def c3site : HljSite where
  pages pn :=
    if pn = 1 then
      [⟨"Kit 1", "/product/1", "¥1,000", ""⟩, ⟨"Kit 2", "/product/2", "¥2,000", ""⟩]
    else if pn = 2 then
      [⟨"Kit 2", "/product/2", "¥2,000", ""⟩, ⟨"Kit 3", "/product/3", "¥3,000", ""⟩]
    else []
  maxPages := 2
  nextVisible _ := true

/-- Witness for C3 at a concrete site: the seeded URL is skipped and the
run's emitted URL list is duplicate-free. -/
theorem c3_dedup_ledger_witness :
    "https://www.hlj.com/product/1" ∉
      ((scrape_hlj_search_page c3site ["https://www.hlj.com/product/1"]
        none).batches.join.map hljCfg.urlOf) ∧
    ((scrape_hlj_search_page c3site ["https://www.hlj.com/product/1"]
        none).batches.join.map hljCfg.urlOf).Nodup :=
  ⟨(c3_dedup_ledger c3site ["https://www.hlj.com/product/1"] none).1
      "https://www.hlj.com/product/1" (by decide),
   (c3_dedup_ledger c3site ["https://www.hlj.com/product/1"] none).2.1⟩

/-- Claim C5: running the hlj walker twice against an unchanged source is
idempotent.  Any first run returns the URL of the first item of page 1 as
its candidate checkpoint (saved by `main`), and a second run over the same
site with that checkpoint hits it on the very first item of page 1: it
writes a single empty batch and emits zero records, whatever seen set it
was seeded with. -/
theorem c5_idempotent_rerun (site : HljSite) (cp0 : Option String)
    (ex0 ex1 : List String) (it : RawItem) (rest : List RawItem)
    (hmax : 1 ≤ site.maxPages)
    (hpage : site.pages 1 = it :: rest)
    (hhref : pyStrip it.href ≠ "") :
    (scrape_hlj_search_page site ex0 cp0).latest = some (itemUrl hljCfg it) ∧
    (scrape_hlj_search_page site ex1 (some (itemUrl hljCfg it))).batches = [[]] ∧
    (scrape_hlj_search_page site ex1 (some (itemUrl hljCfg it))).batches.join =
      ([] : List HljRow) := by
  have hu : itemUrl hljCfg it ≠ "" := hlj_itemUrl_ne_empty hhref
  obtain ⟨k, hk⟩ : ∃ k, site.maxPages = k + 1 := ⟨site.maxPages - 1, by omega⟩
  have hstep : stepItems hljCfg (some (itemUrl hljCfg it)) 1 (site.pages 1) ex1
      none =
      ⟨[], ex1, latestUpd 1 none (itemUrl hljCfg it), true⟩ := by
    rw [hpage]
    exact stepItems_cons_hit rest (cpHitB_some_eq hu)
  have hsecond : (scrape_hlj_search_page site ex1
      (some (itemUrl hljCfg it))).batches = [[]] := by
    unfold scrape_hlj_search_page hljSearchLoop
    rw [hk]
    have hs : hljStop site 1 (stepItems hljCfg (some (itemUrl hljCfg it)) 1
        (site.pages 1) ex1 none).hit = true := by
      rw [hstep]
      rfl
    rw [runLoop_succ_stop k hs, hstep]
  refine ⟨?_, hsecond, by rw [hsecond]; rfl⟩
  unfold scrape_hlj_search_page hljSearchLoop
  rw [hk]
  exact runLoop_latest_first hpage hu

/-- Witness for C5 at a concrete one-page site: the first run's candidate
checkpoint is the first item's URL and the checkpointed re-run writes one
empty batch and no records. -/
theorem c5_idempotent_rerun_witness :
    (scrape_hlj_search_page c3site [] none).latest =
      some (itemUrl hljCfg ⟨"Kit 1", "/product/1", "¥1,000", ""⟩) ∧
    (scrape_hlj_search_page c3site []
      (some (itemUrl hljCfg ⟨"Kit 1", "/product/1", "¥1,000", ""⟩))).batches =
        [[]] ∧
    (scrape_hlj_search_page c3site []
      (some (itemUrl hljCfg ⟨"Kit 1", "/product/1", "¥1,000", ""⟩))).batches.join =
      ([] : List HljRow) :=
  c5_idempotent_rerun c3site none [] [] ⟨"Kit 1", "/product/1", "¥1,000", ""⟩
    [⟨"Kit 2", "/product/2", "¥2,000", ""⟩]
    (by decide) (by decide) (by decide)

/-- Claim C10: in both walkers the per-item loop adds a not-yet-seen URL to
the seen set before the required-field validation, so when the first
occurrence of a URL (the item `it`, reached with no earlier checkpoint-hit
on its page, not matching the checkpoint, and not yet seen) is dropped for
missing fields, that URL is emitted by no batch for the remainder of the
run, from any loop state. -/
theorem c10_dropped_url_never_emitted :
    (∀ (site : HljSite) (cp : Option String) (fuel pn : Nat) (seen : List String)
        (latest : Option String) (pre : List RawItem) (it : RawItem)
        (post : List RawItem),
      site.pages pn = pre ++ it :: post →
      (stepItems hljCfg cp pn pre seen latest).hit = false →
      cpHitB cp (itemUrl hljCfg it) = false →
      itemUrl hljCfg it ∉ (stepItems hljCfg cp pn pre seen latest).seen →
      hljCfg.valid (pyStrip it.title) (pyStrip it.href) (pyStrip it.priceText) = false →
      itemUrl hljCfg it ∉
        ((hljSearchLoop site cp fuel pn seen latest).batches.join.map hljCfg.urlOf)) ∧
    (∀ (join : String → String) (site : BandaiSite) (cp : Option String)
        (fuel pn : Nat) (seen : List String) (latest : Option String)
        (pre : List RawItem) (it : RawItem) (post : List RawItem),
      site.pages pn = pre ++ it :: post →
      (stepItems (bandaiCfg join) cp pn pre seen latest).hit = false →
      cpHitB cp (itemUrl (bandaiCfg join) it) = false →
      itemUrl (bandaiCfg join) it ∉ (stepItems (bandaiCfg join) cp pn pre seen latest).seen →
      (bandaiCfg join).valid (pyStrip it.title) (pyStrip it.href)
        (pyStrip it.priceText) = false →
      itemUrl (bandaiCfg join) it ∉
        ((bandaiSearchLoop join site cp fuel pn seen latest).batches.join.map
          (bandaiCfg join).urlOf)) := by
  constructor
  · intro site cp fuel pn seen latest pre it post hpage hpre hcp hnew hinvalid
    exact runLoop_dropped_url_never_emitted hpage hpre hcp hnew hinvalid
  · intro join site cp fuel pn seen latest pre it post hpage hpre hcp hnew hinvalid
    exact runLoop_dropped_url_never_emitted hpage hpre hcp hnew hinvalid

/-- The listing used by the concrete C10 witness: the first occurrence of
`/product/9` has an empty title (dropped), the second occurrence on the
same page is complete, and a third occurrence appears on page 2. -/
def c10site : HljSite where
  pages pn :=
    if pn = 1 then
      [⟨"", "/product/9", "¥9,000", ""⟩, ⟨"Kit 9", "/product/9", "¥9,000", ""⟩]
    else if pn = 2 then
      [⟨"Kit 9", "/product/9", "¥9,000", ""⟩]
    else []
  maxPages := 2
  nextVisible _ := true

/-- Witness for C10 at a concrete site: the URL whose first occurrence was
dropped for a missing title yields no record in the whole run, although
complete occurrences follow on the same page and on the next one. -/
theorem c10_dropped_url_never_emitted_witness :
    itemUrl hljCfg (⟨"", "/product/9", "¥9,000", ""⟩ : RawItem) ∉
      ((hljSearchLoop c10site none 2 1 [] none).batches.join.map hljCfg.urlOf) :=
  c10_dropped_url_never_emitted.1 c10site none 2 1 [] none []
    ⟨"", "/product/9", "¥9,000", ""⟩ [⟨"Kit 9", "/product/9", "¥9,000", ""⟩]
    (by decide) (by decide) (by decide) (by decide) (by decide)

/-- Claim C4: the checkpoint file is written only by a run that completed
with a truthy candidate checkpoint: an unchanged file or a propagated
fetch error leaves the previous checkpoint exactly as it was, and whenever
the file changes the run must have returned `latest_item_url = u ≠ ""`,
with the file now holding `save_group_checkpoint u`.  A run that errors
while fetching page `K` (pages before `K` having fetched normally) has
already written and flushed exactly the batches the failure-free loop
produces for the pages before `K`, so the emitted records survive the
abort. -/
theorem c4_checkpoint_on_success_only :
    (∀ (file : Option String) (res : Except Unit (Option String)),
      res = .error () → main_checkpoint_after file res = file) ∧
    (∀ (file : Option String) (res : Except Unit (Option String)),
      main_checkpoint_after file res ≠ file →
      ∃ u, res = .ok (some u) ∧ u ≠ "" ∧
        main_checkpoint_after file res = some (save_group_checkpoint u)) ∧
    (∀ (site : HljSite) (cp : Option String)
        (fetch : Nat → Except Unit (List RawItem)) (fuel pn : Nat)
        (seen : List String) (latest : Option String) (K : Nat),
      pn ≤ K →
      (∀ j, pn ≤ j → j < K → fetch j = .ok (site.pages j)) →
      fetch K = .error () →
      (hljSearchLoopE site cp fetch fuel pn seen latest).2 = .error () →
      (hljSearchLoopE site cp fetch fuel pn seen latest).1 =
        (hljSearchLoop site cp (K - pn) pn seen latest).batches) := by
  refine ⟨?_, ?_, ?_⟩
  · intro file res h
    rw [h]
    rfl
  · intro file res h
    match res with
    | .error e => exact absurd rfl h
    | .ok none => exact absurd rfl h
    | .ok (some u) =>
        by_cases hu : u = ""
        · subst hu
          exact absurd (by simp [main_checkpoint_after]) h
        · exact ⟨u, rfl, hu, by simp [main_checkpoint_after, hu]⟩
  · intro site cp fetch fuel pn seen latest K hK hok herr hres
    exact runLoopE_error_batches hK hok herr hres

/-- The fetch behaviour used by the concrete C4 witness: page 1 loads
normally, fetching page 2 raises a navigation error. -/
def c4fetch : Nat → Except Unit (List RawItem) :=
  fun j => if j = 1 then .ok (c3site.pages 1) else .error ()

/-- Witness for C4 at a concrete run: an aborted run leaves the checkpoint
file untouched, and its flushed batches are exactly the failure-free
batches of the pages before the failure. -/
theorem c4_checkpoint_on_success_only_witness :
    main_checkpoint_after (some "https://www.hlj.com/old\n") (.error ()) =
      some "https://www.hlj.com/old\n" ∧
    (hljSearchLoopE c3site none c4fetch 2 1 [] none).1 =
      (hljSearchLoop c3site none 1 1 [] none).batches :=
  ⟨c4_checkpoint_on_success_only.1 (some "https://www.hlj.com/old\n") (.error ()) rfl,
   c4_checkpoint_on_success_only.2.2 c3site none c4fetch 2 1 [] none 2
     (by omega)
     (by
       intro j h1 h2
       have hj : j = 1 := by omega
       subst hj
       rfl)
     rfl
     (by decide)⟩

/-- Claim C1, counterexample.  The claim puts the M error records in the
shared output sink; `scrape_worker` does not write them there: a URL whose
every attempt times out produces the explicit `parse_failed` error result,
but the sink receives nothing for it (the error is only counted and
logged). -/
theorem c1_fetcher_counterexample :
    scrape_one_url (δ := String) (fun _ => .transient) "https://www.hlj.com/x" 3 =
      .errParse "https://www.hlj.com/x" ∧
    isErrRec (scrape_one_url (δ := String) (fun _ => .transient)
      "https://www.hlj.com/x" 3) = true ∧
    worker_sink [scrape_one_url (δ := String) (fun _ => .transient)
      "https://www.hlj.com/x" 3] = [] := by
  refine ⟨by decide, by decide, by decide⟩

/-- Claim C1 (corrected): for a pending set of N URLs of which M fail
terminally, the run completes with per-URL results: every failed URL
yields an explicit error result (`{error: status}` immediately on a
non-200 response, `{error: "parse_failed"}` after the retry budget,
`{error: "scrape_exception"}` on any other exception) and no task is
waited on beyond its retry budget (the result depends only on attempts
`0 … MAX_RETRIES`).  The sink, however, receives only the N−M success
records — in completion order, any permutation of the task list yielding a
permuted sink — while the M error results are only counted and logged:
`ok = N−M` sink lines and `err = M`. -/
theorem c1_fetcher_partial_failure :
    (∀ (δ : Type) (results : List (FetchResult δ)),
      (worker_sink results).length + worker_err_count results = results.length) ∧
    (∀ (δ : Type) (results : List (FetchResult δ)),
      worker_ok_count results = (worker_sink results).length) ∧
    (∀ (δ : Type) (results results' : List (FetchResult δ)),
      results.Perm results' → (worker_sink results).Perm (worker_sink results')) ∧
    (∀ (δ : Type) (results : List (FetchResult δ)) (d : δ),
      d ∈ worker_sink results ↔ .success d ∈ results) ∧
    (∀ (δ : Type) (script script' : Nat → AttemptOutcome δ) (url : String)
        (maxRetries : Nat),
      (∀ a, a ≤ maxRetries → script a = script' a) →
      scrape_one_url script url maxRetries = scrape_one_url script' url maxRetries) ∧
    (∀ (δ : Type) (url : String) (maxRetries code : Nat) (msg : String) (d : δ),
      scrape_one_url (δ := δ) (fun _ => .transient) url maxRetries = .errParse url ∧
      scrape_one_url (δ := δ) (fun _ => .httpErr code) url maxRetries =
        .errStatus code url ∧
      scrape_one_url (δ := δ) (fun _ => .exc msg) url maxRetries = .errExc url msg ∧
      scrape_one_url (fun _ => .okRec d) url maxRetries = .success d) := by
  refine ⟨fun δ results => worker_sink_length results,
    fun δ results => worker_ok_count_eq_sink_length results,
    fun δ results results' h => h.filterMap _,
    ?_, fun δ script script' url maxRetries h => scrape_one_url_budget h, ?_⟩
  · intro δ results d
    constructor
    · intro h
      rcases List.mem_filterMap.1 h with ⟨r, hr, hEq⟩
      cases r with
      | success d' =>
          simp only [Option.some.injEq] at hEq
          exact hEq ▸ hr
      | errStatus c u => simp at hEq
      | errParse u => simp at hEq
      | errExc u m => simp at hEq
    · intro h
      exact List.mem_filterMap.2 ⟨.success d, h, rfl⟩
  · intro δ url maxRetries code msg d
    refine ⟨scrapeAttempts_transient _ 0, ?_, ?_, ?_⟩ <;>
      simp [scrape_one_url, scrapeAttempts]

/-- Witness for C1: the sink is permutation-stable under completion order,
and the retry budget bounds the attempts consulted — a script that would
succeed on attempt 5 is indistinguishable from one that never succeeds
when `MAX_RETRIES = 3`. -/
theorem c1_fetcher_partial_failure_witness :
    (worker_sink [FetchResult.success "a", FetchResult.errParse "u"]).Perm
      (worker_sink [FetchResult.errParse "u", FetchResult.success "a"]) ∧
    scrape_one_url (δ := String)
        (fun a => if a ≤ 3 then .transient else .okRec "d") "u" 3 =
      scrape_one_url (fun _ => .transient) "u" 3 ∧
    (worker_sink [FetchResult.success "a", FetchResult.errParse "u"]).length +
        worker_err_count [FetchResult.success "a", FetchResult.errParse "u"] = 2 :=
  ⟨c1_fetcher_partial_failure.2.2.1 String _ _ (List.Perm.swap _ _ _),
   c1_fetcher_partial_failure.2.2.2.2.1 String _ _ "u" 3
     (fun a ha => by rw [if_pos ha]),
   c1_fetcher_partial_failure.1 String
     [FetchResult.success "a", FetchResult.errParse "u"]⟩

end Gunpradb
